import Mathlib

/-!
# OptixScene (gInteractiveOptix/optix_scene.cpp): scene-graph orchestration

A shallow embedding of `OptixScene`.  The C++ object is a record of handles into
the OptiX device context; here every device object is a value that carries the
handle (`id`) it was created with, the members of `OptixScene` are fields of a
record, and every call into OptiX, CUDA or OpenGL whose *occurrence* matters is
appended to a chronological `trace`.

Conventions
* an OptiX object handle is a natural number, `0` being the null handle;
* an operation returns `none` when the C++ would not return normally: a null
  handle is dereferenced, a `std::vector` is indexed out of range, or `nverror()`
  is reached;
* `float` values are exact rationals plus the two kinds of non-number an IEEE
  division can produce; rounding and the sign of zero are not modelled;
* container sizes are natural numbers (the `(int)` casts of `size()` are exact on
  every size that fits in memory);
* library calls are modelled on their success path, except `validate`, `compile`
  and `launch`, whose exceptions the source catches: their outcome is an input.
-/

namespace OptixSceneModel

/-! ## Values -/

/-- A `float`: an exact number, an infinity (sign not tracked) or a NaN. -/
inductive FloatVal where
  | num (q : ℚ)
  | inf
  | nan
deriving DecidableEq, Repr

/-- Unary minus on `float`. -/
def FloatVal.neg : FloatVal → FloatVal
  | .num q => .num (-q)
  | .inf => .inf
  | .nan => .nan

/-- Division on `float`: IEEE-754 for the special cases, exact otherwise. -/
def FloatVal.div : FloatVal → FloatVal → FloatVal
  | .num a, .num b => if b = 0 then (if a = 0 then .nan else .inf) else .num (a / b)
  | .num _, .inf => .num 0
  | .num _, .nan => .nan
  | .inf, .num _ => .inf
  | .inf, .inf => .nan
  | .inf, .nan => .nan
  | .nan, _ => .nan

/-- The `Vector3DF` / `float3` triple. -/
structure Vector3DF where
  x : FloatVal
  y : FloatVal
  z : FloatVal
deriving DecidableEq, Repr

/-- The `float2` pair. -/
structure Float2 where
  x : FloatVal
  y : FloatVal
deriving DecidableEq, Repr

/-- The `Vector4DF` / `float4` quadruple. -/
structure Vector4DF where
  x : FloatVal
  y : FloatVal
  z : FloatVal
  w : FloatVal
deriving DecidableEq, Repr

/-- The `int3` triple. -/
structure Int3 where
  x : Int
  y : Int
  z : Int
deriving DecidableEq, Repr

/-- The sixteen floats returned by `Matrix4F::GetDataF`. -/
abbrev Matrix4F := List FloatVal

/-- An opaque fixed-size block (`MaterialParams`, `VDBInfo`), as its bytes. -/
abbrev Blob := List Nat

/-- The result of `memset ( p, 0, sz )`. -/
def zeroBlob (sz : Nat) : Blob := List.replicate sz 0

/-- Sizes of the two structs declared outside this file. -/
structure Layout where
  sizeofMaterialParams : Nat
  sizeofVDBInfo : Nat
deriving DecidableEq, Repr

/-- Conversion of an `int` argument to `unsigned int`. -/
def toUInt32 (i : Int) : Nat := (i % 4294967296).toNat

/-- Conversion of an unsigned size to `int` (the `(int) bw` casts). -/
def toInt32 (n : Nat) : Int :=
  if n % 4294967296 < 2147483648 then ((n % 4294967296 : Nat) : Int)
  else ((n % 4294967296 : Nat) : Int) - 4294967296

/-- Indexing a `std::vector` with an `int`: defined only inside the range. -/
def vecAt {α : Type} (v : List α) (i : Int) : Option α :=
  if 0 ≤ i then v[i.toNat]? else none

/-- The OptiX `RTformat` enumeration. -/
inductive RTformat where
  | RT_FORMAT_UNKNOWN
  | RT_FORMAT_FLOAT | RT_FORMAT_FLOAT2 | RT_FORMAT_FLOAT3 | RT_FORMAT_FLOAT4
  | RT_FORMAT_BYTE | RT_FORMAT_BYTE2 | RT_FORMAT_BYTE3 | RT_FORMAT_BYTE4
  | RT_FORMAT_UNSIGNED_BYTE | RT_FORMAT_UNSIGNED_BYTE2
  | RT_FORMAT_UNSIGNED_BYTE3 | RT_FORMAT_UNSIGNED_BYTE4
  | RT_FORMAT_SHORT | RT_FORMAT_SHORT2 | RT_FORMAT_SHORT3 | RT_FORMAT_SHORT4
  | RT_FORMAT_UNSIGNED_SHORT | RT_FORMAT_UNSIGNED_SHORT2
  | RT_FORMAT_UNSIGNED_SHORT3 | RT_FORMAT_UNSIGNED_SHORT4
  | RT_FORMAT_INT | RT_FORMAT_INT2 | RT_FORMAT_INT3 | RT_FORMAT_INT4
  | RT_FORMAT_UNSIGNED_INT | RT_FORMAT_UNSIGNED_INT2
  | RT_FORMAT_UNSIGNED_INT3 | RT_FORMAT_UNSIGNED_INT4
  | RT_FORMAT_USER
deriving DecidableEq, Repr

/-- The element size `rtuGetSizeForRTformat` reports; it fails on the two
formats that have no fixed size. -/
def rtuGetSizeForRTformat : RTformat → Option Nat
  | .RT_FORMAT_UNKNOWN => none
  | .RT_FORMAT_USER => none
  | .RT_FORMAT_FLOAT => some 4 | .RT_FORMAT_FLOAT2 => some 8
  | .RT_FORMAT_FLOAT3 => some 12 | .RT_FORMAT_FLOAT4 => some 16
  | .RT_FORMAT_BYTE => some 1 | .RT_FORMAT_BYTE2 => some 2
  | .RT_FORMAT_BYTE3 => some 3 | .RT_FORMAT_BYTE4 => some 4
  | .RT_FORMAT_UNSIGNED_BYTE => some 1 | .RT_FORMAT_UNSIGNED_BYTE2 => some 2
  | .RT_FORMAT_UNSIGNED_BYTE3 => some 3 | .RT_FORMAT_UNSIGNED_BYTE4 => some 4
  | .RT_FORMAT_SHORT => some 2 | .RT_FORMAT_SHORT2 => some 4
  | .RT_FORMAT_SHORT3 => some 6 | .RT_FORMAT_SHORT4 => some 8
  | .RT_FORMAT_UNSIGNED_SHORT => some 2 | .RT_FORMAT_UNSIGNED_SHORT2 => some 4
  | .RT_FORMAT_UNSIGNED_SHORT3 => some 6 | .RT_FORMAT_UNSIGNED_SHORT4 => some 8
  | .RT_FORMAT_INT => some 4 | .RT_FORMAT_INT2 => some 8
  | .RT_FORMAT_INT3 => some 12 | .RT_FORMAT_INT4 => some 16
  | .RT_FORMAT_UNSIGNED_INT => some 4 | .RT_FORMAT_UNSIGNED_INT2 => some 8
  | .RT_FORMAT_UNSIGNED_INT3 => some 12 | .RT_FORMAT_UNSIGNED_INT4 => some 16

/-- The OpenGL constants the file uses. -/
inductive GLenum where
  | GL_ARRAY_BUFFER | GL_PIXEL_UNPACK_BUFFER | GL_STREAM_DRAW
  | GL_TEXTURE_2D | GL_UNPACK_ALIGNMENT
  | GL_RGBA8 | GL_BGRA | GL_UNSIGNED_BYTE
  | GL_RGBA32F_ARB | GL_RGBA | GL_FLOAT
  | GL_RGB32F_ARB | GL_RGB
  | GL_LUMINANCE32F_ARB | GL_LUMINANCE
deriving DecidableEq, Repr

/-- The kinds of OptiX node that `destroy()` is called on. -/
inductive NodeKind where
  | geometry | geometryInstance | geometryGroup | transform | material | textureSampler
deriving DecidableEq, Repr

/-- A call into OptiX, CUDA or OpenGL recorded in the trace. -/
inductive Call where
  | destroy (kind : NodeKind) (h : Nat)
  | createTextureSamplerFromGLImage (h : Nat) (glid : Int)
  | markDirty (acceleration : Nat)
  | validate
  | compile
  | launch (entry : Nat) (w : Int) (h : Int)
  | cuCtxSynchronize
  | glGenBuffers (name : Nat)
  | glBindBuffer (target : GLenum) (name : Nat)
  | glBufferData (target : GLenum) (size : Nat) (usage : GLenum)
  | glBindTexture (target : GLenum) (tex : Int)
  | glPixelStorei (pname : GLenum) (param : Nat)
  | glTexImage2D (target : GLenum) (level : Nat) (internalformat : GLenum)
      (w : Int) (h : Int) (border : Nat) (format : GLenum) (type : GLenum)
deriving DecidableEq, Repr

/-! ## Device objects -/

/-- A program loaded by `createProgramFromPTXFile`. -/
structure Program where
  id : Nat
  file : String
  func : String
deriving DecidableEq, Repr

/-- A two-dimensional buffer (the output buffer and the seed buffer). -/
structure Buffer where
  id : Nat
  glbo : Nat
  format : RTformat
  elementSize : Nat
  width : Nat
  height : Nat
deriving DecidableEq, Repr

/-- A one-dimensional input buffer together with what was written while mapped. -/
structure DataBuffer (α : Type) where
  id : Nat
  format : RTformat
  data : List α
deriving DecidableEq, Repr

/-- An acceleration structure and the properties set on it. -/
structure Acceleration where
  id : Nat
  builder : String
  traverser : String
  properties : List (String × String)
deriving DecidableEq, Repr

/-- A material: its two programs (with their ray type) and its `mat` variable. -/
structure Material where
  id : Nat
  closestHit : Nat × Program
  anyHit : Nat × Program
  mat : Option Blob
deriving DecidableEq, Repr

/-- The variables declared on a geometry node. -/
structure GeometryVars where
  vertex_buffer : Option (DataBuffer Vector3DF) := none
  normal_buffer : Option (DataBuffer Vector3DF) := none
  texcoord_buffer : Option (DataBuffer Float2) := none
  vindex_buffer : Option (DataBuffer Int3) := none
  nindex_buffer : Option (DataBuffer Int3) := none
  tindex_buffer : Option (DataBuffer Int3) := none
  mindex_buffer : Option (DataBuffer Nat) := none
  brick_buffer : Option (DataBuffer Vector3DF) := none
  mat_id : Option Nat := none
deriving DecidableEq, Repr

/-- A geometry node. -/
structure Geometry where
  id : Nat
  primitiveCount : Nat
  intersectionProgram : Option Program
  boundingBoxProgram : Option Program
  vars : GeometryVars
deriving DecidableEq, Repr

/-- A geometry instance: its geometry and the handles of its materials. -/
structure GeometryInstance where
  id : Nat
  geometry : Geometry
  materials : List Nat
deriving DecidableEq, Repr

/-- A geometry group: an acceleration and child slots. -/
structure GeometryGroup where
  id : Nat
  acceleration : Option Acceleration
  children : List (Option GeometryInstance)
deriving DecidableEq, Repr

/-- A transform node. -/
structure Transform where
  id : Nat
  transpose : Bool
  matrix : Matrix4F
  child : Option GeometryGroup
deriving DecidableEq, Repr

/-- The top-level group.  The declared child count is the number of slots. -/
structure Group where
  id : Nat
  acceleration : Option Acceleration
  children : List (Option Transform)
deriving DecidableEq, Repr

/-- The child count `getChildCount` reports. -/
def Group.childCount (g : Group) : Nat := g.children.length

/-- The effect of `setChildCount`: slots below the new count keep their child,
new slots are empty. -/
def Group.setChildCount (g : Group) (n : Nat) : Group :=
  { g with children := g.children.take n ++ List.replicate (n - g.children.length) none }

/-- The effect of `setChild ( i, t )` on a slot inside the declared count. -/
def Group.setChild (g : Group) (i : Nat) (t : Transform) : Group :=
  { g with children := g.children.set i (some t) }

/-- A texture sampler created from a GL image. -/
structure TextureSampler where
  id : Nat
  glid : Int
  wrapMode : List (Nat × String)
  indexingMode : String
  readMode : String
  filteringModes : String × String × String
deriving DecidableEq, Repr

/-- The context: its fixed settings, its programs, and the named variables
(`none` = not declared). -/
structure Context where
  id : Nat
  entryPointCount : Nat := 0
  rayTypeCount : Nat := 0
  stackSize : Nat := 0
  rayGenerationProgram : Option (Nat × Program) := none
  exceptionProgram : Option (Nat × Program) := none
  missProgram : Option (Nat × Program) := none
  scene_epsilon : Option FloatVal := none
  output_buffer : Option Nat := none
  bad_color : Option Vector3DF := none
  rnd_seeds : Option Nat := none
  top_object : Option Nat := none
  cam_pos : Option Vector3DF := none
  cam_U : Option Vector3DF := none
  cam_V : Option Vector3DF := none
  cam_W : Option Vector3DF := none
  frame_number : Option Nat := none
  sample : Option Nat := none
  light_pos : Option Vector3DF := none
  scn_shading : Option Nat := none
  scn_extinct : Option Vector3DF := none
  scn_steps : Option Vector3DF := none
  scn_cutoff : Option Vector3DF := none
  scn_transfer_func : Option Nat := none
  gvdb : Option Blob := none
  volTexIn : Option Nat := none
deriving DecidableEq, Repr

/-- The mesh handed to `AddPolygons`.  `vertBuffer k` is the `float3` read at
byte offset `k` of the vertex buffer (`none` outside the allocation). -/
structure Model where
  vertCount : Nat
  elemCount : Nat
  vertBuffer : Nat → Option Vector3DF
  vertOffset : Nat
  normOffset : Nat
  vertStride : Nat
  elemBuffer : List Int

/-- The members of `OptixScene`, the handle counter of the device and the trace
of calls made so far (oldest first). -/
structure OptixScene where
  m_OptixContext : Option Context
  m_OptixMainGroup : Option Group
  m_OptixVolSampler : Option TextureSampler
  m_OptixVolIntersectSurfProg : Option Program
  m_OptixVolIntersectLevelSetProg : Option Program
  m_OptixVolIntersectDeepProg : Option Program
  m_OptixVolBBoxProg : Option Program
  m_OptixMeshIntersectProg : Option Program
  m_OptixMeshBBoxProg : Option Program
  m_OptixBuffer : Option Buffer
  m_OptixTransferFunc : Option (DataBuffer Vector4DF)
  m_OptixModels : List Transform
  m_OptixVolumes : List Transform
  m_OptixMats : List Material
  m_OptixMatParams : List Blob
  nextHandle : Nat
  nextGLName : Nat
  trace : List Call
deriving DecidableEq, Repr

/-! ## Operations -/

/-- The state left by the constructor `OptixScene::OptixScene`: every handle is
null and every vector is empty. -/
def OptixScene.ctor : OptixScene :=
  { m_OptixContext := none
    m_OptixMainGroup := none
    m_OptixVolSampler := none
    m_OptixVolIntersectSurfProg := none
    m_OptixVolIntersectLevelSetProg := none
    m_OptixVolIntersectDeepProg := none
    m_OptixVolBBoxProg := none
    m_OptixMeshIntersectProg := none
    m_OptixMeshBBoxProg := none
    m_OptixBuffer := none
    m_OptixTransferFunc := none
    m_OptixModels := []
    m_OptixVolumes := []
    m_OptixMats := []
    m_OptixMatParams := []
    nextHandle := 1
    nextGLName := 1
    trace := [] }

/-- Assignments of the form `m_OptixContext[...]->set...`: they need a context. -/
def setContext (f : Context → Context) (s : OptixScene) : Option OptixScene :=
  match s.m_OptixContext with
  | none => none
  | some c => some { s with m_OptixContext := some (f c) }

/-- A `for ( int i=0; i < n; i++ )` loop that produces one buffer entry per
iteration; it has no result when an iteration reads out of range. -/
def forLoop {α : Type} (body : Nat → Option α) : Nat → Option (List α)
  | 0 => some []
  | n + 1 =>
    match forLoop body n with
    | none => none
    | some done =>
      match body n with
      | none => none
      | some x => some (done ++ [x])

/-- `OptixScene::CreateOutputOptix`: an OptiX output buffer on top of a new
OpenGL buffer object. -/
def CreateOutputOptix (format : RTformat) (width height : Nat) (s : OptixScene) :
    Option (Buffer × OptixScene) :=
  match s.m_OptixContext with
  | none => none
  | some _ =>
    let vbo := s.nextGLName
    match rtuGetSizeForRTformat format with
    | none => none
    | some element_size =>
      let buffer : Buffer :=
        { id := s.nextHandle, glbo := vbo, format := format, elementSize := element_size,
          width := width, height := height }
      some (buffer,
        { s with
          nextGLName := s.nextGLName + 1
          nextHandle := s.nextHandle + 1
          trace := s.trace ++
            [ Call.glGenBuffers vbo,
              Call.glBindBuffer GLenum.GL_ARRAY_BUFFER vbo,
              Call.glBufferData GLenum.GL_ARRAY_BUFFER (element_size * width * height)
                GLenum.GL_STREAM_DRAW,
              Call.glBindBuffer GLenum.GL_ARRAY_BUFFER 0 ] })

/-- `OptixScene::CreateProgramOptix`: load one entry point of a PTX file. -/
def CreateProgramOptix (name prog_func : String) (s : OptixScene) :
    Option (Program × OptixScene) :=
  match s.m_OptixContext with
  | none => none
  | some _ =>
    some ({ id := s.nextHandle, file := name, func := prog_func },
      { s with nextHandle := s.nextHandle + 1 })

/-- `OptixScene::SetCamera`. -/
def SetCamera (pos U V W : Vector3DF) (asp : FloatVal) (s : OptixScene) : Option OptixScene :=
  setContext (fun c =>
    { c with
      cam_pos := some ⟨pos.x, pos.y, pos.z⟩
      cam_U := some ⟨U.x, U.y, U.z⟩
      cam_V := some ⟨V.x.neg.div asp, V.y.neg.div asp, V.z.neg.div asp⟩
      cam_W := some ⟨W.x.neg, W.y.neg, W.z.neg⟩ }) s

/-- `OptixScene::SetSample`. -/
def SetSample (frame sample : Int) (s : OptixScene) : Option OptixScene :=
  setContext (fun c =>
    { c with frame_number := some (toUInt32 frame), sample := some (toUInt32 sample) }) s

/-- `OptixScene::SetLight`. -/
def SetLight (pos : Vector3DF) (s : OptixScene) : Option OptixScene :=
  setContext (fun c => { c with light_pos := some ⟨pos.x, pos.y, pos.z⟩ }) s

/-- `OptixScene::SetShading`. -/
def SetShading (stype : Int) (s : OptixScene) : Option OptixScene :=
  setContext (fun c => { c with scn_shading := some (toUInt32 stype) }) s

/-- `OptixScene::SetVolumeParams`. -/
def SetVolumeParams (steps extinct cutoff : Vector3DF) (s : OptixScene) : Option OptixScene :=
  setContext (fun c =>
    { c with
      scn_extinct := some ⟨extinct.x, extinct.y, extinct.z⟩
      scn_steps := some ⟨steps.x, steps.y, steps.z⟩
      scn_cutoff := some ⟨cutoff.x, cutoff.y, cutoff.z⟩ }) s

/-- `OptixScene::SetTransferFunc`: a new 16384-entry buffer holding a copy of
`src`; reading `src` past its end has no defined result. -/
def SetTransferFunc (src : List Vector4DF) (s : OptixScene) : Option OptixScene :=
  match s.m_OptixContext with
  | none => none
  | some c =>
    if src.length < 16384 then none
    else
      let buf : DataBuffer Vector4DF :=
        { id := s.nextHandle, format := RTformat.RT_FORMAT_FLOAT4, data := src.take 16384 }
      some { s with
        m_OptixTransferFunc := some buf
        m_OptixContext := some { c with scn_transfer_func := some buf.id }
        nextHandle := s.nextHandle + 1 }

/-- `OptixScene::AssignGVDB`: publish `sz` bytes starting at `dat`. -/
def AssignGVDB (sz : Nat) (dat : Blob) (s : OptixScene) : Option OptixScene :=
  if dat.length < sz then none
  else setContext (fun c => { c with gvdb := some (dat.take sz) }) s

/-- `InitializeOptix`, "Create OptiX context" up to "Assign miss program". -/
def initContextAndPrograms (w h : Int) (s : OptixScene) : Option OptixScene := do
  -- Create OptiX context
  let ctx : Context :=
    { id := s.nextHandle, entryPointCount := 1, rayTypeCount := 2, stackSize := 4200,
      scene_epsilon := some (FloatVal.num (1 / 1000000)) }
  let s := { s with m_OptixContext := some ctx, nextHandle := s.nextHandle + 1 }
  -- Create Output buffer
  let (buf, s) ← CreateOutputOptix RTformat.RT_FORMAT_FLOAT3 (toUInt32 w) (toUInt32 h) s
  let s := { s with m_OptixBuffer := some buf }
  let s ← setContext (fun c => { c with output_buffer := some buf.id }) s
  -- Camera ray gen and exception program
  let (raygen, s) ← CreateProgramOptix "optix_trace_primary.ptx" "trace_primary" s
  let s ← setContext (fun c => { c with rayGenerationProgram := some (0, raygen) }) s
  let (exc, s) ← CreateProgramOptix "optix_trace_primary.ptx" "exception" s
  let s ← setContext (fun c => { c with exceptionProgram := some (0, exc) }) s
  -- Used by both exception programs
  let s ← setContext (fun c =>
    { c with bad_color := some ⟨FloatVal.num 0, FloatVal.num 0, FloatVal.num 0⟩ }) s
  -- Assign miss program
  let (miss, s) ← CreateProgramOptix "optix_trace_miss.ptx" "miss" s
  setContext (fun c => { c with missProgram := some (0, miss) }) s

/-- `InitializeOptix`, "Declare variables": every setter is called with zeros. -/
def declareVariables (L : Layout) (s : OptixScene) : Option OptixScene := do
  let zero3 : Vector3DF := ⟨FloatVal.num 0, FloatVal.num 0, FloatVal.num 0⟩
  let s ← SetSample 0 0 s
  let s ← SetLight zero3 s
  let s ← SetShading 0 s
  let s ← SetVolumeParams zero3 zero3 zero3 s
  let s ← SetCamera zero3 zero3 zero3 zero3 (FloatVal.num 0) s
  AssignGVDB L.sizeofVDBInfo (zeroBlob L.sizeofVDBInfo) s

/-- `InitializeOptix`, "Random seed buffer"; the seeds come from `rand()` and
are not modelled. -/
def createSeedBuffer (w h : Int) (s : OptixScene) : Option OptixScene :=
  let rnd_seeds : Buffer :=
    { id := s.nextHandle, glbo := 0, format := RTformat.RT_FORMAT_UNSIGNED_INT, elementSize := 4,
      width := (w % 18446744073709551616).toNat, height := (h % 18446744073709551616).toNat }
  setContext (fun c => { c with rnd_seeds := some rnd_seeds.id })
    { s with nextHandle := s.nextHandle + 1 }

/-- `InitializeOptix`, "Initialize mesh intersection programs" and "Initialize
volume intersection programs". -/
def loadIntersectionPrograms (s : OptixScene) : Option OptixScene := do
  let (p, s) ← CreateProgramOptix "optix_mesh_intersect.ptx" "mesh_intersect" s
  let s := { s with m_OptixMeshIntersectProg := some p }
  let (p, s) ← CreateProgramOptix "optix_mesh_intersect.ptx" "mesh_bounds" s
  let s := { s with m_OptixMeshBBoxProg := some p }
  let (p, s) ← CreateProgramOptix "optix_vol_intersect.ptx" "vol_intersect" s
  let s := { s with m_OptixVolIntersectSurfProg := some p }
  let (p, s) ← CreateProgramOptix "optix_vol_intersect.ptx" "vol_levelset" s
  let s := { s with m_OptixVolIntersectLevelSetProg := some p }
  let (p, s) ← CreateProgramOptix "optix_vol_intersect.ptx" "vol_deep" s
  let s := { s with m_OptixVolIntersectDeepProg := some p }
  let (p, s) ← CreateProgramOptix "optix_vol_intersect.ptx" "vol_bounds" s
  some { s with m_OptixVolBBoxProg := some p }

/-- `InitializeOptix`, "Create main group (no geometry yet)". -/
def createMainGroup (s : OptixScene) : Option OptixScene :=
  let group : Group := { id := s.nextHandle, acceleration := none, children := [] }
  let group := group.setChildCount 0
  let accel : Acceleration :=
    { id := s.nextHandle + 1, builder := "NoAccel", traverser := "NoAccel", properties := [] }
  let group := { group with acceleration := some accel }
  setContext (fun c => { c with top_object := some group.id })
    { s with m_OptixMainGroup := some group, nextHandle := s.nextHandle + 2 }

/-- `OptixScene::InitializeOptix`: the five parts of its body, in source order. -/
def InitializeOptix (L : Layout) (w h : Int) (s : OptixScene) : Option OptixScene :=
  (((initContextAndPrograms w h s).bind (declareVariables L)).bind
    (createSeedBuffer w h)).bind loadIntersectionPrograms |>.bind createMainGroup

/-- The destroy calls `ClearGraph` makes for one subtree, in source order:
geometry, geometry instance, geometry group, transform.  It has no result when
the transform has no geometry group or the group has no child in slot 0. -/
def destroySubtree (t : Transform) : Option (List Call) :=
  match t.child with
  | none => none
  | some geomgroup =>
    match geomgroup.children[0]? with
    | some (some geominst) =>
      let geom := geominst.geometry
      some [ Call.destroy NodeKind.geometry geom.id,
             Call.destroy NodeKind.geometryInstance geominst.id,
             Call.destroy NodeKind.geometryGroup geomgroup.id,
             Call.destroy NodeKind.transform t.id ]
    | _ => none

/-- The loop of `ClearGraph` over a vector of transforms. -/
def destroySubtrees : List Transform → Option (List Call)
  | [] => some []
  | t :: rest =>
    match destroySubtree t with
    | none => none
    | some calls =>
      match destroySubtrees rest with
      | none => none
      | some more => some (calls ++ more)

/-- `OptixScene::ClearGraph`. -/
def ClearGraph (s : OptixScene) : Option OptixScene :=
  match destroySubtrees s.m_OptixModels with
  | none => none
  | some modelCalls =>
    match destroySubtrees s.m_OptixVolumes with
    | none => none
    | some volumeCalls =>
      some { s with
        m_OptixModels := []
        m_OptixVolumes := []
        m_OptixMats := []
        trace := s.trace ++ modelCalls ++ volumeCalls ++
          s.m_OptixMats.map (fun m => Call.destroy NodeKind.material m.id) }

/-- `OptixScene::AddMaterial`; the result is the returned index and the new state. -/
def AddMaterial (L : Layout) (fname cast_prog shadow_prog : String) (s : OptixScene) :
    Option (Int × OptixScene) :=
  match s.m_OptixContext with
  | none => none
  | some _ =>
    -- Create OptiX material
    let omatId := s.nextHandle
    let s := { s with nextHandle := s.nextHandle + 1 }
    -- Load material shaders
    let ptx_file := fname ++ ".ptx"
    match CreateProgramOptix ptx_file cast_prog s with
    | none => none
    | some (ch_program, s) =>
      match CreateProgramOptix ptx_file shadow_prog s with
      | none => none
      | some (ah_program, s) =>
        -- Add material params
        let matp : Blob := zeroBlob L.sizeofMaterialParams
        let omat : Material :=
          { id := omatId, closestHit := (0, ch_program), anyHit := (1, ah_program),
            mat := some matp }
        let s := { s with
          m_OptixMats := s.m_OptixMats ++ [omat]
          m_OptixMatParams := s.m_OptixMatParams ++ [matp] }
        some ((s.m_OptixMats.length : Int) - 1, s)

/-- `OptixScene::SetMaterialParams`: publish the stored block `n` to the `mat`
variable of material `n`. -/
def SetMaterialParams (n : Int) (s : OptixScene) : Option OptixScene :=
  match vecAt s.m_OptixMats n with
  | none => none
  | some omat =>
    match vecAt s.m_OptixMatParams n with
    | none => none
    | some params =>
      some { s with m_OptixMats := s.m_OptixMats.set n.toNat { omat with mat := some params } }

/-- Modelled from the spec: the material-table write of section 4.4 (`SetParams`
"overwrites the stored parameter block and republishes it").  The accessor through
which a caller overwrites `m_OptixMatParams[n]` is declared in the header, which
is not part of the sources; the republish is `SetMaterialParams`. -/
def SetParams (n : Int) (paramBlock : Blob) (s : OptixScene) : Option OptixScene :=
  match vecAt s.m_OptixMatParams n with
  | none => none
  | some _ =>
    SetMaterialParams n { s with m_OptixMatParams := s.m_OptixMatParams.set n.toNat paramBlock }

/-- `AddPolygons`, "Per-vertex" to "Geometry node": the six buffers (they take
the next six handles in the order they are created) and the geometry node that
refers to them.  `vbuffer_data`, `nbuffer_data` and `tri_verts` are what the two
copy loops wrote. -/
def meshGeometry (s : OptixScene) (model : Model) (vbuffer_data nbuffer_data : List Vector3DF)
    (tri_verts : List Int3) : Geometry :=
  let num_vertices := model.vertCount
  let num_triangles := model.elemCount
  let h := s.nextHandle
  let tc : Float2 := ⟨FloatVal.num 0, FloatVal.num 0⟩
  let vbuffer : DataBuffer Vector3DF :=
    { id := h, format := RTformat.RT_FORMAT_FLOAT3, data := vbuffer_data }
  let nbuffer : DataBuffer Vector3DF :=
    { id := h + 1, format := RTformat.RT_FORMAT_FLOAT3, data := nbuffer_data }
  let tbuffer : DataBuffer Float2 :=
    { id := h + 2, format := RTformat.RT_FORMAT_FLOAT2, data := List.replicate num_vertices tc }
  let vindex_buffer : DataBuffer Int3 :=
    { id := h + 3, format := RTformat.RT_FORMAT_INT3, data := tri_verts }
  let nindex_buffer : DataBuffer Int3 :=
    { id := h + 4, format := RTformat.RT_FORMAT_INT3, data := tri_verts }
  let mindex_buffer : DataBuffer Nat :=
    { id := h + 5, format := RTformat.RT_FORMAT_UNSIGNED_INT,
      data := List.replicate num_triangles 0 }
  { id := h + 6
    primitiveCount := num_triangles
    intersectionProgram := s.m_OptixMeshIntersectProg
    boundingBoxProgram := s.m_OptixMeshBBoxProg
    vars :=
      { vertex_buffer := some vbuffer
        normal_buffer := some nbuffer
        texcoord_buffer := some tbuffer
        vindex_buffer := some vindex_buffer
        nindex_buffer := some nindex_buffer
        tindex_buffer := some nindex_buffer
        mindex_buffer := some mindex_buffer } }

/-- `AddPolygons`, "Geometry Instance node" to "Transform node": the instance
bound to `mat`, the geometry group with its acceleration, and the transform. -/
def meshSubtree (s : OptixScene) (geom : Geometry) (mat : Material) (xform : Matrix4F) :
    Transform :=
  let h := s.nextHandle
  let geominst : GeometryInstance := { id := h + 7, geometry := geom, materials := [mat.id] }
  let acceleration : Acceleration :=
    { id := h + 9, builder := "Sbvh", traverser := "Bvh",
      properties :=
        [ ("refine", "0"), ("refit", "0"),
          ("vertex_buffer_name", "vertex_buffer"),
          ("index_buffer_name", "vindex_buffer") ] }
  let geomgroup : GeometryGroup :=
    { id := h + 8, acceleration := some acceleration, children := [some geominst] }
  { id := h + 10, transpose := true, matrix := xform, child := some geomgroup }

/-- The body of the "Copy element data (indices)" loop of `AddPolygons`. -/
def readTriangle (model : Model) (i : Nat) : Option Int3 :=
  match model.elemBuffer[i * 3]?, model.elemBuffer[i * 3 + 1]?, model.elemBuffer[i * 3 + 2]? with
  | some x, some y, some z => some (Int3.mk x y z)
  | _, _, _ => none

/-- `OptixScene::AddPolygons`. -/
def AddPolygons (model : Model) (mat_id : Int) (xform : Matrix4F) (s : OptixScene) :
    Option OptixScene :=
  match s.m_OptixContext, s.m_OptixMainGroup,
    -- Copy vertex data
    forLoop (fun i => model.vertBuffer (i * model.vertStride + model.vertOffset))
      model.vertCount,
    forLoop (fun i => model.vertBuffer (i * model.vertStride + model.normOffset))
      model.vertCount,
    -- Copy element data (indices)
    forLoop (readTriangle model) model.elemCount,
    -- Geometry Instance node
    vecAt s.m_OptixMats mat_id with
  | some _, some mainGroup, some vbuffer_data, some nbuffer_data, some tri_verts, some mat =>
    let id := s.m_OptixModels.length + s.m_OptixVolumes.length
    let geom := meshGeometry s model vbuffer_data nbuffer_data tri_verts
    let tform := meshSubtree s geom mat xform
    some { s with
      -- Add model root (Transform) to the Main Group
      m_OptixMainGroup := some ((mainGroup.setChildCount (id + 1)).setChild id tform)
      m_OptixModels := s.m_OptixModels ++ [tform]
      nextHandle := s.nextHandle + 11
      -- acceleration->markDirty()
      trace := s.trace ++ [Call.markDirty (s.nextHandle + 9)] }
  | _, _, _, _, _, _ => none

/-- `AddVolume`, "Geometry node" and "Brick buffer". -/
def volumeGeometry (s : OptixScene) (vmin vmax : Vector3DF) (mat_id : Int) (deep lset : Bool) :
    Geometry :=
  let h := s.nextHandle
  let brick_buffer : DataBuffer Vector3DF :=
    { id := h + 1, format := RTformat.RT_FORMAT_FLOAT3, data := [vmin, vmax] }
  { id := h
    primitiveCount := 1
    intersectionProgram :=
      if deep then s.m_OptixVolIntersectDeepProg
      else if lset then s.m_OptixVolIntersectLevelSetProg
      else s.m_OptixVolIntersectSurfProg
    boundingBoxProgram := s.m_OptixVolBBoxProg
    vars := { brick_buffer := some brick_buffer, mat_id := some (toUInt32 mat_id) } }

/-- `AddVolume`, "Geometry Instance node" to "Transform node". -/
def volumeSubtree (s : OptixScene) (geom : Geometry) (mat : Material) (xform : Matrix4F) :
    Transform :=
  let h := s.nextHandle
  let geominst : GeometryInstance := { id := h + 2, geometry := geom, materials := [mat.id] }
  let acceleration : Acceleration :=
    { id := h + 4, builder := "Sbvh", traverser := "Bvh",
      properties :=
        [ ("refine", "0"), ("refit", "1"),
          ("vertex_buffer_name", "vertex_buffer"),
          ("index_buffer_name", "vindex_buffer") ] }
  let geomgroup : GeometryGroup :=
    { id := h + 3, acceleration := some acceleration, children := [some geominst] }
  { id := h + 5, transpose := true, matrix := xform, child := some geomgroup }

/-- `AddVolume`, "Create volume texture sampler from the Texture Atlas". -/
def volumeSampler (s : OptixScene) (atlas_glid : Int) : TextureSampler :=
  { id := s.nextHandle + 6
    glid := atlas_glid
    wrapMode :=
      [ (0, "RT_WRAP_CLAMP_TO_EDGE"), (1, "RT_WRAP_CLAMP_TO_EDGE"),
        (2, "RT_WRAP_CLAMP_TO_EDGE") ]
    indexingMode := "RT_TEXTURE_INDEX_ARRAY_INDEX"
    readMode := "RT_TEXTURE_READ_ELEMENT_TYPE"
    filteringModes := ("RT_FILTER_LINEAR", "RT_FILTER_LINEAR", "RT_FILTER_NONE") }

/-- `AddVolume`, `if ( m_OptixVolSampler != 0x0 ) m_OptixVolSampler->destroy();`. -/
def destroyOldSampler : Option TextureSampler → List Call
  | none => []
  | some old => [Call.destroy NodeKind.textureSampler old.id]

/-- `OptixScene::AddVolume`. -/
def AddVolume (atlas_glid : Int) (vmin vmax : Vector3DF) (mat_id : Int) (xform : Matrix4F)
    (deep lset : Bool) (s : OptixScene) : Option OptixScene :=
  match s.m_OptixContext, s.m_OptixMainGroup, vecAt s.m_OptixMats mat_id with
  | some ctx, some mainGroup, some mat =>
    let id := s.m_OptixModels.length + s.m_OptixVolumes.length
    let geom := volumeGeometry s vmin vmax mat_id deep lset
    let tform := volumeSubtree s geom mat xform
    let sampler := volumeSampler s atlas_glid
    some { s with
      -- Add model root (Transform) to the Main Group
      m_OptixMainGroup := some ((mainGroup.setChildCount (id + 1)).setChild id tform)
      m_OptixVolumes := s.m_OptixVolumes ++ [tform]
      -- Create a volume texture sampler
      m_OptixVolSampler := some sampler
      m_OptixContext := some { ctx with volTexIn := some sampler.id }
      nextHandle := s.nextHandle + 7
      -- acceleration->markDirty(), then the sampler is replaced
      trace := s.trace ++ [Call.markDirty (s.nextHandle + 4)] ++
        destroyOldSampler s.m_OptixVolSampler ++
        [Call.createTextureSamplerFromGLImage sampler.id atlas_glid] }
  | _, _, _ => none

/-- `OptixScene::ValidateGraph`.  `validateOk` and `compileOk` say whether the
device accepts the graph; a rejection ends in `nverror()`. -/
def ValidateGraph (validateOk compileOk : Bool) (s : OptixScene) : Option OptixScene :=
  match s.m_OptixContext with
  | none => none
  | some _ =>
    if validateOk then
      if compileOk then some { s with trace := s.trace ++ [Call.validate, Call.compile] }
      else none
    else none

/-- `OptixScene::Launch`.  `launchOk` says whether the device runs the launch
without raising an exception; an exception ends in `nverror()`. -/
def Launch (launchOk : Bool) (s : OptixScene) : Option OptixScene :=
  match s.m_OptixBuffer, s.m_OptixContext with
  | some buffer, some _ =>
    -- Get buffer dims
    let bw := buffer.width
    let bh := buffer.height
    if launchOk then
      some { s with
        trace := s.trace ++ [Call.launch 0 (toInt32 bw) (toInt32 bh), Call.cuCtxSynchronize] }
    else none
  | _, _ => none

/-- The `if / else if` cascade of `ReadOutputTex` that picks the value given to
`glPixelStorei ( GL_UNPACK_ALIGNMENT, . )`. -/
def unpackAlignment (elementSize : Nat) : Nat :=
  if elementSize % 8 = 0 then 8
  else if elementSize % 4 = 0 then 4
  else if elementSize % 2 = 0 then 2
  else 1

/-- The `switch (buffer_format)` of `ReadOutputTex`: the image transfers issued. -/
def copyToTexture (buffer_format : RTformat) (tw th : Int) : List Call :=
  match buffer_format with
  | RTformat.RT_FORMAT_UNSIGNED_BYTE4 =>
    [Call.glTexImage2D GLenum.GL_TEXTURE_2D 0 GLenum.GL_RGBA8 tw th 0
      GLenum.GL_BGRA GLenum.GL_UNSIGNED_BYTE]
  | RTformat.RT_FORMAT_FLOAT4 =>
    [Call.glTexImage2D GLenum.GL_TEXTURE_2D 0 GLenum.GL_RGBA32F_ARB tw th 0
      GLenum.GL_RGBA GLenum.GL_FLOAT]
  | RTformat.RT_FORMAT_FLOAT3 =>
    [Call.glTexImage2D GLenum.GL_TEXTURE_2D 0 GLenum.GL_RGB32F_ARB tw th 0
      GLenum.GL_RGB GLenum.GL_FLOAT]
  | RTformat.RT_FORMAT_FLOAT =>
    [Call.glTexImage2D GLenum.GL_TEXTURE_2D 0 GLenum.GL_LUMINANCE32F_ARB tw th 0
      GLenum.GL_LUMINANCE GLenum.GL_FLOAT]
  | _ => []

/-- `OptixScene::ReadOutputTex`. -/
def ReadOutputTex (out_tex : Int) (s : OptixScene) : Option OptixScene :=
  match s.m_OptixBuffer with
  | none => none
  | some buffer =>
    let bw := buffer.width
    let bh := buffer.height
    let vboid := buffer.glbo
    let elementSize := buffer.elementSize
    let buffer_format := buffer.format
    let tw := toInt32 bw
    let th := toInt32 bh
    some { s with
      trace := s.trace ++
        [ Call.glBindTexture GLenum.GL_TEXTURE_2D out_tex,
          Call.glBindBuffer GLenum.GL_PIXEL_UNPACK_BUFFER vboid,
          Call.glPixelStorei GLenum.GL_UNPACK_ALIGNMENT (unpackAlignment elementSize) ] ++
        copyToTexture buffer_format tw th ++
        [ Call.glBindBuffer GLenum.GL_PIXEL_UNPACK_BUFFER 0,
          Call.glBindTexture GLenum.GL_TEXTURE_2D 0 ] }

/-! ## Call sequences -/

/-- One call of a public operation, with its arguments. -/
inductive Op where
  | ClearGraph
  | AddMaterial (fname cast_prog shadow_prog : String)
  | SetMaterialParams (n : Int)
  | SetParams (n : Int) (paramBlock : Blob)
  | AddPolygons (model : Model) (mat_id : Int) (xform : Matrix4F)
  | AddVolume (atlas_glid : Int) (vmin vmax : Vector3DF) (mat_id : Int) (xform : Matrix4F)
      (deep lset : Bool)
  | ValidateGraph (validateOk compileOk : Bool)
  | SetCamera (pos U V W : Vector3DF) (asp : FloatVal)
  | SetSample (frame sample : Int)
  | SetLight (pos : Vector3DF)
  | SetShading (stype : Int)
  | SetVolumeParams (steps extinct cutoff : Vector3DF)
  | SetTransferFunc (src : List Vector4DF)
  | AssignGVDB (sz : Nat) (dat : Blob)
  | Launch (launchOk : Bool)
  | ReadOutputTex (out_tex : Int)

/-- The state after one call (`none` when the call does not return normally). -/
def step (L : Layout) : Op → OptixScene → Option OptixScene
  | Op.ClearGraph, s => ClearGraph s
  | Op.AddMaterial f c sh, s => (AddMaterial L f c sh s).map Prod.snd
  | Op.SetMaterialParams n, s => SetMaterialParams n s
  | Op.SetParams n b, s => SetParams n b s
  | Op.AddPolygons m mat x, s => AddPolygons m mat x s
  | Op.AddVolume a lo hi mat x d l, s => AddVolume a lo hi mat x d l s
  | Op.ValidateGraph v c, s => ValidateGraph v c s
  | Op.SetCamera p u v w a, s => SetCamera p u v w a s
  | Op.SetSample f sm, s => SetSample f sm s
  | Op.SetLight p, s => SetLight p s
  | Op.SetShading t, s => SetShading t s
  | Op.SetVolumeParams st e c, s => SetVolumeParams st e c s
  | Op.SetTransferFunc src, s => SetTransferFunc src s
  | Op.AssignGVDB sz d, s => AssignGVDB sz d s
  | Op.Launch ok, s => Launch ok s
  | Op.ReadOutputTex t, s => ReadOutputTex t s

/-- The state after a sequence of calls, all of which return normally. -/
def run (L : Layout) : List Op → OptixScene → Option OptixScene
  | [], s => some s
  | op :: ops, s =>
    match step L op s with
    | none => none
    | some s1 => run L ops s1

/-- A state the public operations can reach: `InitializeOptix` on a newly
constructed scene, then any sequence of calls that return normally. -/
def Reachable (L : Layout) (s : OptixScene) : Prop :=
  ∃ (w h : Int) (s0 : OptixScene) (ops : List Op),
    InitializeOptix L w h OptixScene.ctor = some s0 ∧ run L ops s0 = some s

/-! ## Vocabulary of the properties -/

/-- The calls that build a subtree: `AddPolygons` and `AddVolume`. -/
def Op.addsSubtree : Op → Bool
  | Op.AddPolygons _ _ _ => true
  | Op.AddVolume _ _ _ _ _ _ _ => true
  | _ => false

/-- Recognises a `ClearGraph` call. -/
def Op.isClearGraph : Op → Bool
  | Op.ClearGraph => true
  | _ => false

/-- The transform a call has created, read off the state it returned: the
element it pushed to the back of `m_OptixModels` (`AddPolygons`) or of
`m_OptixVolumes` (`AddVolume`); other calls create none. -/
def newTransform : Op → OptixScene → List Transform
  | Op.AddPolygons _ _ _, s1 => s1.m_OptixModels.getLast?.toList
  | Op.AddVolume _ _ _ _ _ _ _, s1 => s1.m_OptixVolumes.getLast?.toList
  | _, _ => []

/-- The transforms created by the calls of a sequence, in call order. -/
def createdTransforms (L : Layout) : List Op → OptixScene → List Transform
  | [], _ => []
  | op :: ops, s =>
    match step L op s with
    | none => []
    | some s1 => newTransform op s1 ++ createdTransforms L ops s1

/-- The calls a state transition appended to the trace. -/
def callsSince (s s1 : OptixScene) : List Call := s1.trace.drop s.trace.length

/-- The samplers created so far, oldest first, each with the GL image it wraps. -/
def samplersCreated (trace : List Call) : List (Nat × Int) :=
  trace.filterMap fun c =>
    match c with
    | Call.createTextureSamplerFromGLImage h glid => some (h, glid)
    | _ => none

/-- The samplers destroyed so far, oldest first. -/
def samplersDestroyed (trace : List Call) : List Nat :=
  trace.filterMap fun c =>
    match c with
    | Call.destroy NodeKind.textureSampler h => some h
    | _ => none

/-- The samplers that are live: created and not destroyed. -/
def liveSamplers (trace : List Call) : List (Nat × Int) :=
  (samplersCreated trace).filter fun p => decide (p.1 ∉ samplersDestroyed trace)

/-- The accelerations on which `markDirty` has been called so far. -/
def markedDirty (trace : List Call) : List Nat :=
  trace.filterMap fun c =>
    match c with
    | Call.markDirty h => some h
    | _ => none

/-- The number of image transfers (`glTexImage2D`) in a list of calls. -/
def imageTransfers (calls : List Call) : Nat :=
  (calls.filter fun c =>
    match c with
    | Call.glTexImage2D _ _ _ _ _ _ _ _ => true
    | _ => false).length

/-- The ray-tracing dispatches (`launch`) in a list of calls. -/
def dispatches (calls : List Call) : List Call :=
  calls.filter fun c =>
    match c with
    | Call.launch _ _ _ => true
    | _ => false

/-- The four formats `ReadOutputTex` has a `case` for. -/
def supportedFormat : RTformat → Bool
  | RTformat.RT_FORMAT_UNSIGNED_BYTE4 => true
  | RTformat.RT_FORMAT_FLOAT4 => true
  | RTformat.RT_FORMAT_FLOAT3 => true
  | RTformat.RT_FORMAT_FLOAT => true
  | _ => false

/-- A vector of three exact numbers. -/
def vec3 (x y z : ℚ) : Vector3DF := ⟨FloatVal.num x, FloatVal.num y, FloatVal.num z⟩

/-- The handles of the nodes of a subtree, children before parents: geometry,
geometry instance, geometry group, transform. -/
def subtreeHandles (t : Transform) : List Nat :=
  match t.child with
  | some geomgroup =>
    match geomgroup.children with
    | [some geominst] => [geominst.geometry.id, geominst.id, geomgroup.id, t.id]
    | _ => []
  | none => []

/-- The four destroy calls for a subtree, in dependency order. -/
def subtreeDestroyCalls (t : Transform) : List Call :=
  List.zipWith Call.destroy
    [NodeKind.geometry, NodeKind.geometryInstance, NodeKind.geometryGroup, NodeKind.transform]
    (subtreeHandles t)

/-- The handle a destroy call names. -/
def Call.destroyed : Call → Option Nat
  | Call.destroy _ h => some h
  | _ => none

/-- A subtree as `AddPolygons` and `AddVolume` build it: a transform over a
geometry group with exactly one geometry instance. -/
def Transform.isSubtree (t : Transform) : Bool :=
  match t.child with
  | some geomgroup =>
    match geomgroup.children with
    | [some _] => true
    | _ => false
  | none => false

/-- The handles of the nodes `ClearGraph` will destroy: those of the mesh
subtrees, those of the volume subtrees, and the materials. -/
def liveHandles (s : OptixScene) : List Nat :=
  s.m_OptixModels.flatMap subtreeHandles ++ s.m_OptixVolumes.flatMap subtreeHandles ++
    s.m_OptixMats.map (fun m => m.id)

/-- The handles of the objects `InitializeOptix` creates and keeps in members:
the context, the output buffer and the six intersection and bounding-box
programs. -/
def fixedHandles (s : OptixScene) : List Nat :=
  (s.m_OptixContext.map (fun c => c.id)).toList ++
  (s.m_OptixBuffer.map (fun b => b.id)).toList ++
  (s.m_OptixMeshIntersectProg.map (fun p => p.id)).toList ++
  (s.m_OptixMeshBBoxProg.map (fun p => p.id)).toList ++
  (s.m_OptixVolIntersectSurfProg.map (fun p => p.id)).toList ++
  (s.m_OptixVolIntersectLevelSetProg.map (fun p => p.id)).toList ++
  (s.m_OptixVolIntersectDeepProg.map (fun p => p.id)).toList ++
  (s.m_OptixVolBBoxProg.map (fun p => p.id)).toList

/-- What holds in every reachable state. -/
structure Inv (s : OptixScene) : Prop where
  context : ∃ c, s.m_OptixContext = some c ∧ c.volTexIn = s.m_OptixVolSampler.map (fun x => x.id)
  mainGroup : ∃ g a, s.m_OptixMainGroup = some g ∧ g.acceleration = some a ∧
    a.id < s.nextHandle ∧ a.id ∉ markedDirty s.trace
  buffer : ∃ b, s.m_OptixBuffer = some b ∧ b.format = RTformat.RT_FORMAT_FLOAT3
  meshIntersect : s.m_OptixMeshIntersectProg.map (fun p => p.func) = some "mesh_intersect"
  meshBBox : s.m_OptixMeshBBoxProg.map (fun p => p.func) = some "mesh_bounds"
  volSurf : s.m_OptixVolIntersectSurfProg.map (fun p => p.func) = some "vol_intersect"
  volLevelSet : s.m_OptixVolIntersectLevelSetProg.map (fun p => p.func) = some "vol_levelset"
  volDeep : s.m_OptixVolIntersectDeepProg.map (fun p => p.func) = some "vol_deep"
  volBBox : s.m_OptixVolBBoxProg.map (fun p => p.func) = some "vol_bounds"
  subtrees : ∀ t ∈ s.m_OptixModels ++ s.m_OptixVolumes, t.isSubtree = true
  handlesNodup : (liveHandles s).Nodup
  handlesFresh : ∀ h ∈ liveHandles s, h < s.nextHandle
  samplers : (samplersCreated s.trace).map Prod.fst =
    samplersDestroyed s.trace ++ (s.m_OptixVolSampler.map (fun x => x.id)).toList
  samplersNodup : ((samplersCreated s.trace).map Prod.fst).Nodup
  samplersFresh : ∀ h ∈ (samplersCreated s.trace).map Prod.fst, h < s.nextHandle
  samplerAtlas : ∀ smp, s.m_OptixVolSampler = some smp →
    (samplersCreated s.trace).getLast? = some (smp.id, smp.glid)
  fixedFresh : ∀ h ∈ fixedHandles s, h < s.nextHandle
  fixedNotLive : ∀ h ∈ fixedHandles s, h ∉ liveHandles s

/-- A call that leaves the scene graph, the material handles, the sampler and
the program handles as they are, and appends only calls that neither create nor
destroy a node nor mark an acceleration dirty. -/
structure Frame (s s1 : OptixScene) : Prop where
  context : ∀ c, s.m_OptixContext = some c →
    ∃ c1, s1.m_OptixContext = some c1 ∧ c1.volTexIn = c.volTexIn
  contextId : s1.m_OptixContext.map (fun c => c.id) = s.m_OptixContext.map (fun c => c.id)
  mainGroup : s1.m_OptixMainGroup = s.m_OptixMainGroup
  buffer : s1.m_OptixBuffer = s.m_OptixBuffer
  meshIntersect : s1.m_OptixMeshIntersectProg = s.m_OptixMeshIntersectProg
  meshBBox : s1.m_OptixMeshBBoxProg = s.m_OptixMeshBBoxProg
  volSurf : s1.m_OptixVolIntersectSurfProg = s.m_OptixVolIntersectSurfProg
  volLevelSet : s1.m_OptixVolIntersectLevelSetProg = s.m_OptixVolIntersectLevelSetProg
  volDeep : s1.m_OptixVolIntersectDeepProg = s.m_OptixVolIntersectDeepProg
  volBBox : s1.m_OptixVolBBoxProg = s.m_OptixVolBBoxProg
  models : s1.m_OptixModels = s.m_OptixModels
  volumes : s1.m_OptixVolumes = s.m_OptixVolumes
  mats : s1.m_OptixMats.map (fun m => m.id) = s.m_OptixMats.map (fun m => m.id)
  sampler : s1.m_OptixVolSampler = s.m_OptixVolSampler
  nextHandle : s.nextHandle ≤ s1.nextHandle
  created : samplersCreated s1.trace = samplersCreated s.trace
  destroyed : samplersDestroyed s1.trace = samplersDestroyed s.trace
  marked : markedDirty s1.trace = markedDirty s.trace


/-! ## Concrete scenes -/

/-- Struct sizes used in the concrete scenes. -/
def layout0 : Layout := { sizeofMaterialParams := 4, sizeofVDBInfo := 2 }

/-- One triangle: three vertices of 24 bytes each (position, then normal). -/
def triangle : Model :=
  { vertCount := 3
    elemCount := 1
    vertBuffer := fun k => if k + 12 ≤ 72 then some (vec3 0 0 0) else none
    vertOffset := 0
    normOffset := 12
    vertStride := 24
    elemBuffer := [0, 1, 2] }

/-- Two triangles sharing an edge. -/
def quad : Model :=
  { vertCount := 4
    elemCount := 2
    vertBuffer := fun k => if k + 12 ≤ 96 then some (vec3 0 0 0) else none
    vertOffset := 0
    normOffset := 12
    vertStride := 24
    elemBuffer := [0, 1, 2, 2, 1, 3] }

/-- The scene right after `InitializeOptix ( 4, 3 )`. -/
def scene0 : OptixScene := (InitializeOptix layout0 4 3 OptixScene.ctor).getD OptixScene.ctor

/-- Two materials, a mesh and a volume. -/
def build1 : List Op :=
  [ Op.AddMaterial "optix_trace_surface" "trace_surface" "trace_shadow",
    Op.AddMaterial "optix_trace_deep" "trace_deep" "trace_shadow",
    Op.AddPolygons triangle 0 [],
    Op.AddVolume 7 (vec3 0 0 0) (vec3 1 1 1) 1 [] true false ]

/-- The scene after `build1`. -/
def scene1 : OptixScene := (run layout0 build1 scene0).getD scene0

/-- The context of `scene1`. -/
def context1 : Context := scene1.m_OptixContext.getD { id := 0 }

/-- The top-level group of `scene1`. -/
def mainGroup1 : Group :=
  scene1.m_OptixMainGroup.getD { id := 0, acceleration := none, children := [] }

/-- The second material of `scene1`. -/
def material1 : Material :=
  { id := 18
    closestHit := (0, { id := 19, file := "optix_trace_deep.ptx", func := "trace_deep" })
    anyHit := (1, { id := 20, file := "optix_trace_deep.ptx", func := "trace_shadow" })
    mat := some (zeroBlob 4) }

/-- The scene `ClearGraph` leaves when called on `scene1`. -/
def scene1Cleared : OptixScene := (ClearGraph scene1).getD scene1

/-- A fresh build after `ClearGraph`: one material, one mesh. -/
def rebuild : List Op :=
  [ Op.AddMaterial "optix_trace_surface" "trace_surface" "trace_shadow",
    Op.AddPolygons triangle 0 [] ]

/-- The scene after `rebuild` on the cleared scene. -/
def scene2 : OptixScene := (run layout0 rebuild scene1Cleared).getD scene1Cleared

/-- The scene after the two `AddMaterial` calls of `build1`. -/
def sceneMats : OptixScene := (run layout0 (build1.take 2) scene0).getD scene0

/-- The acceleration `InitializeOptix` installs on the top-level group. -/
def mainAcceleration : Acceleration :=
  { id := 14, builder := "NoAccel", traverser := "NoAccel", properties := [] }

/-- One material, its block overwritten, then `ClearGraph`. -/
def buildThenClear : List Op :=
  [ Op.AddMaterial "optix_trace_surface" "trace_surface" "trace_shadow",
    Op.SetParams 0 [1, 2, 3, 4],
    Op.ClearGraph ]

/-- The scene after `buildThenClear`. -/
def sceneStale : OptixScene := (run layout0 buildThenClear scene0).getD scene0

/-! ## Lemmas: calls that leave the scene graph alone -/

theorem frame_setContext {f : Context → Context} {s s1 : OptixScene}
    (hf : ∀ c, (f c).volTexIn = c.volTexIn ∧ (f c).id = c.id)
    (h : setContext f s = some s1) : Frame s s1 := by
  unfold setContext at h
  cases hc : s.m_OptixContext with
  | none => simp [hc] at h
  | some c =>
    simp only [hc, Option.some.injEq] at h
    subst h
    constructor <;> simp [hc, (hf c).1, (hf c).2]

theorem frame_SetCamera {pos U V W : Vector3DF} {asp : FloatVal} {s s1 : OptixScene}
    (h : SetCamera pos U V W asp s = some s1) : Frame s s1 := by
  unfold SetCamera at h
  refine frame_setContext ?_ h
  intro c; exact ⟨rfl, rfl⟩

theorem frame_SetSample {frame sample : Int} {s s1 : OptixScene}
    (h : SetSample frame sample s = some s1) : Frame s s1 := by
  unfold SetSample at h
  refine frame_setContext ?_ h
  intro c; exact ⟨rfl, rfl⟩

theorem frame_SetLight {pos : Vector3DF} {s s1 : OptixScene}
    (h : SetLight pos s = some s1) : Frame s s1 := by
  unfold SetLight at h
  refine frame_setContext ?_ h
  intro c; exact ⟨rfl, rfl⟩

theorem frame_SetShading {stype : Int} {s s1 : OptixScene}
    (h : SetShading stype s = some s1) : Frame s s1 := by
  unfold SetShading at h
  refine frame_setContext ?_ h
  intro c; exact ⟨rfl, rfl⟩

theorem frame_SetVolumeParams {steps extinct cutoff : Vector3DF} {s s1 : OptixScene}
    (h : SetVolumeParams steps extinct cutoff s = some s1) : Frame s s1 := by
  unfold SetVolumeParams at h
  refine frame_setContext ?_ h
  intro c; exact ⟨rfl, rfl⟩

theorem frame_AssignGVDB {sz : Nat} {dat : Blob} {s s1 : OptixScene}
    (h : AssignGVDB sz dat s = some s1) : Frame s s1 := by
  unfold AssignGVDB at h
  split at h
  · simp at h
  · refine frame_setContext ?_ h
    intro c; exact ⟨rfl, rfl⟩

theorem frame_SetTransferFunc {src : List Vector4DF} {s s1 : OptixScene}
    (h : SetTransferFunc src s = some s1) : Frame s s1 := by
  unfold SetTransferFunc at h
  cases hc : s.m_OptixContext with
  | none => simp [hc] at h
  | some c =>
    simp only [hc] at h
    split at h
    · simp at h
    · simp only [Option.some.injEq] at h
      subst h
      constructor <;> simp [hc]

theorem frame_ValidateGraph {v c : Bool} {s s1 : OptixScene}
    (h : ValidateGraph v c s = some s1) : Frame s s1 := by
  unfold ValidateGraph at h
  cases hc : s.m_OptixContext with
  | none => simp [hc] at h
  | some ctx =>
    cases v <;> cases c <;> simp [hc] at h
    subst h
    constructor <;>
      simp [hc, samplersCreated, samplersDestroyed, markedDirty, List.filterMap_append]

theorem frame_Launch {ok : Bool} {s s1 : OptixScene}
    (h : Launch ok s = some s1) : Frame s s1 := by
  unfold Launch at h
  cases hb : s.m_OptixBuffer with
  | none => simp [hb] at h
  | some b =>
    cases hc : s.m_OptixContext with
    | none => simp [hb, hc] at h
    | some ctx =>
      cases ok <;> simp [hb, hc] at h
      subst h
      constructor <;>
        simp [hb, hc, samplersCreated, samplersDestroyed, markedDirty, List.filterMap_append]

theorem copyToTexture_filterMap_nil {β : Type} (f : Call → Option β)
    (hf : ∀ a b c d e g h i, f (Call.glTexImage2D a b c d e g h i) = none)
    (fmt : RTformat) (tw th : Int) : (copyToTexture fmt tw th).filterMap f = [] := by
  cases fmt <;> simp [copyToTexture, hf]

theorem frame_ReadOutputTex {t : Int} {s s1 : OptixScene}
    (h : ReadOutputTex t s = some s1) : Frame s s1 := by
  unfold ReadOutputTex at h
  cases hb : s.m_OptixBuffer with
  | none => simp [hb] at h
  | some b =>
    simp only [hb, Option.some.injEq] at h
    subst h
    constructor <;>
      first
      | exact fun c hc => ⟨c, hc, rfl⟩
      | rfl
      | simp [hb, samplersCreated, samplersDestroyed, markedDirty, List.filterMap_append,
          copyToTexture_filterMap_nil]


theorem map_id_set {l : List Material} {i : Nat} {m m1 : Material}
    (h : l[i]? = some m) (hid : m1.id = m.id) :
    (l.set i m1).map (fun x => x.id) = l.map (fun x => x.id) := by
  induction l generalizing i with
  | nil => simp
  | cons a l ih =>
    cases i with
    | zero =>
      simp only [List.getElem?_cons_zero, Option.some.injEq] at h
      subst h
      simp [hid]
    | succ i =>
      simp only [List.getElem?_cons_succ] at h
      simp [ih h]

theorem frame_SetMaterialParams {n : Int} {s s1 : OptixScene}
    (h : SetMaterialParams n s = some s1) : Frame s s1 := by
  unfold SetMaterialParams at h
  cases hm : vecAt s.m_OptixMats n with
  | none => simp [hm] at h
  | some omat =>
    cases hp : vecAt s.m_OptixMatParams n with
    | none => simp [hm, hp] at h
    | some params =>
      simp only [hm, hp, Option.some.injEq] at h
      subst h
      have hget : s.m_OptixMats[n.toNat]? = some omat := by
        unfold vecAt at hm
        split at hm
        · exact hm
        · simp at hm
      constructor <;>
        first
        | exact fun c hc => ⟨c, hc, rfl⟩
        | rfl
        | exact map_id_set hget rfl

theorem frame_SetParams {n : Int} {b : Blob} {s s1 : OptixScene}
    (h : SetParams n b s = some s1) : Frame s s1 := by
  unfold SetParams at h
  split at h
  · simp at h
  · have f := frame_SetMaterialParams h
    exact ⟨f.context, f.contextId, f.mainGroup, f.buffer, f.meshIntersect, f.meshBBox, f.volSurf,
      f.volLevelSet, f.volDeep, f.volBBox, f.models, f.volumes, f.mats, f.sampler,
      f.nextHandle, f.created, f.destroyed, f.marked⟩

theorem inv_of_frame {s s1 : OptixScene} (hs : Inv s) (f : Frame s s1) : Inv s1 := by
  obtain ⟨c, hc, hv⟩ := hs.context
  obtain ⟨c1, hc1, hv1⟩ := f.context c hc
  obtain ⟨g, a, hg, ha, hlt, hnm⟩ := hs.mainGroup
  constructor
  · exact ⟨c1, hc1, by rw [hv1, hv, f.sampler]⟩
  · exact ⟨g, a, by rw [f.mainGroup, hg], ha, lt_of_lt_of_le hlt f.nextHandle,
      by rw [f.marked]; exact hnm⟩
  · rw [f.buffer]; exact hs.buffer
  · rw [f.meshIntersect]; exact hs.meshIntersect
  · rw [f.meshBBox]; exact hs.meshBBox
  · rw [f.volSurf]; exact hs.volSurf
  · rw [f.volLevelSet]; exact hs.volLevelSet
  · rw [f.volDeep]; exact hs.volDeep
  · rw [f.volBBox]; exact hs.volBBox
  · rw [f.models, f.volumes]; exact hs.subtrees
  · have e : liveHandles s1 = liveHandles s := by
      unfold liveHandles; rw [f.models, f.volumes, f.mats]
    rw [e]; exact hs.handlesNodup
  · have e : liveHandles s1 = liveHandles s := by
      unfold liveHandles; rw [f.models, f.volumes, f.mats]
    rw [e]
    intro h hh
    exact lt_of_lt_of_le (hs.handlesFresh h hh) f.nextHandle
  · rw [f.created, f.destroyed, f.sampler]; exact hs.samplers
  · rw [f.created]; exact hs.samplersNodup
  · rw [f.created]
    intro h hh
    exact lt_of_lt_of_le (hs.samplersFresh h hh) f.nextHandle
  · rw [f.created, f.sampler]; exact hs.samplerAtlas
  · have e : fixedHandles s1 = fixedHandles s := by
      unfold fixedHandles
      rw [f.contextId, f.buffer, f.meshIntersect, f.meshBBox, f.volSurf, f.volLevelSet,
        f.volDeep, f.volBBox]
    rw [e]
    intro h hh
    exact lt_of_lt_of_le (hs.fixedFresh h hh) f.nextHandle
  · have e : fixedHandles s1 = fixedHandles s := by
      unfold fixedHandles
      rw [f.contextId, f.buffer, f.meshIntersect, f.meshBBox, f.volSurf, f.volLevelSet,
        f.volDeep, f.volBBox]
    have e2 : liveHandles s1 = liveHandles s := by
      unfold liveHandles; rw [f.models, f.volumes, f.mats]
    rw [e, e2]; exact hs.fixedNotLive


/-! ## Lemmas: what the graph-changing calls return -/

theorem AddMaterial_eq {L : Layout} {f c sh : String} {s s1 : OptixScene} {i : Int}
    (h : AddMaterial L f c sh s = some (i, s1)) :
    (∃ ctx, s.m_OptixContext = some ctx) ∧ i = s.m_OptixMats.length ∧
    s1 = { s with
      nextHandle := s.nextHandle + 3
      m_OptixMats := s.m_OptixMats ++
        [{ id := s.nextHandle
           closestHit := (0, { id := s.nextHandle + 1, file := f ++ ".ptx", func := c })
           anyHit := (1, { id := s.nextHandle + 2, file := f ++ ".ptx", func := sh })
           mat := some (zeroBlob L.sizeofMaterialParams) }]
      m_OptixMatParams := s.m_OptixMatParams ++ [zeroBlob L.sizeofMaterialParams] } := by
  unfold AddMaterial at h
  cases hc : s.m_OptixContext with
  | none => simp [hc] at h
  | some ctx =>
    simp only [hc, CreateProgramOptix, Option.some.injEq, Prod.mk.injEq] at h
    obtain ⟨hi, hs⟩ := h
    subst hs
    refine ⟨⟨ctx, rfl⟩, ?_, rfl⟩
    rw [← hi]
    simp

theorem AddPolygons_eq {model : Model} {m : Int} {x : Matrix4F} {s s1 : OptixScene}
    (h : AddPolygons model m x s = some s1) :
    ∃ ctx g vd nd tv mat,
      s.m_OptixContext = some ctx ∧ s.m_OptixMainGroup = some g ∧
      forLoop (fun i => model.vertBuffer (i * model.vertStride + model.vertOffset))
        model.vertCount = some vd ∧
      forLoop (fun i => model.vertBuffer (i * model.vertStride + model.normOffset))
        model.vertCount = some nd ∧
      forLoop (readTriangle model) model.elemCount = some tv ∧
      vecAt s.m_OptixMats m = some mat ∧
      s1 = { s with
        m_OptixMainGroup := some
          ((g.setChildCount (s.m_OptixModels.length + s.m_OptixVolumes.length + 1)).setChild
            (s.m_OptixModels.length + s.m_OptixVolumes.length)
            (meshSubtree s (meshGeometry s model vd nd tv) mat x))
        m_OptixModels := s.m_OptixModels ++ [meshSubtree s (meshGeometry s model vd nd tv) mat x]
        nextHandle := s.nextHandle + 11
        trace := s.trace ++ [Call.markDirty (s.nextHandle + 9)] } := by
  unfold AddPolygons at h
  split at h
  · rename_i ctx g vd nd tv mat hc hg hv hn ht hm
    simp only [Option.some.injEq] at h
    exact ⟨ctx, g, vd, nd, tv, mat, hc, hg, hv, hn, ht, hm, h.symm⟩
  · simp at h

theorem AddPolygons_of {model : Model} {m : Int} {x : Matrix4F} {s : OptixScene}
    {ctx : Context} {g : Group} {vd nd : List Vector3DF} {tv : List Int3} {mat : Material}
    (hc : s.m_OptixContext = some ctx) (hg : s.m_OptixMainGroup = some g)
    (hv : forLoop (fun i => model.vertBuffer (i * model.vertStride + model.vertOffset))
      model.vertCount = some vd)
    (hn : forLoop (fun i => model.vertBuffer (i * model.vertStride + model.normOffset))
      model.vertCount = some nd)
    (ht : forLoop (readTriangle model) model.elemCount = some tv)
    (hm : vecAt s.m_OptixMats m = some mat) :
    AddPolygons model m x s = some { s with
      m_OptixMainGroup := some
        ((g.setChildCount (s.m_OptixModels.length + s.m_OptixVolumes.length + 1)).setChild
          (s.m_OptixModels.length + s.m_OptixVolumes.length)
          (meshSubtree s (meshGeometry s model vd nd tv) mat x))
      m_OptixModels := s.m_OptixModels ++ [meshSubtree s (meshGeometry s model vd nd tv) mat x]
      nextHandle := s.nextHandle + 11
      trace := s.trace ++ [Call.markDirty (s.nextHandle + 9)] } := by
  simp only [AddPolygons, hc, hg, hv, hn, ht, hm]

theorem AddVolume_of (a : Int) (lo hi : Vector3DF) {m : Int} (x : Matrix4F) (d l : Bool)
    {s : OptixScene} {ctx : Context} {g : Group} {mat : Material}
    (hc : s.m_OptixContext = some ctx) (hg : s.m_OptixMainGroup = some g)
    (hm : vecAt s.m_OptixMats m = some mat) :
    AddVolume a lo hi m x d l s = some { s with
      m_OptixMainGroup := some
        ((g.setChildCount (s.m_OptixModels.length + s.m_OptixVolumes.length + 1)).setChild
          (s.m_OptixModels.length + s.m_OptixVolumes.length)
          (volumeSubtree s (volumeGeometry s lo hi m d l) mat x))
      m_OptixVolumes := s.m_OptixVolumes ++
        [volumeSubtree s (volumeGeometry s lo hi m d l) mat x]
      m_OptixVolSampler := some (volumeSampler s a)
      m_OptixContext := some { ctx with volTexIn := some (s.nextHandle + 6) }
      nextHandle := s.nextHandle + 7
      trace := s.trace ++ [Call.markDirty (s.nextHandle + 4)] ++
        destroyOldSampler s.m_OptixVolSampler ++
        [Call.createTextureSamplerFromGLImage (s.nextHandle + 6) a] } := by
  simp only [AddVolume, hc, hg, hm, volumeSampler]

theorem AddVolume_eq {a : Int} {lo hi : Vector3DF} {m : Int} {x : Matrix4F} {d l : Bool}
    {s s1 : OptixScene} (h : AddVolume a lo hi m x d l s = some s1) :
    ∃ ctx g mat,
      s.m_OptixContext = some ctx ∧ s.m_OptixMainGroup = some g ∧
      vecAt s.m_OptixMats m = some mat ∧
      s1 = { s with
        m_OptixMainGroup := some
          ((g.setChildCount (s.m_OptixModels.length + s.m_OptixVolumes.length + 1)).setChild
            (s.m_OptixModels.length + s.m_OptixVolumes.length)
            (volumeSubtree s (volumeGeometry s lo hi m d l) mat x))
        m_OptixVolumes := s.m_OptixVolumes ++
          [volumeSubtree s (volumeGeometry s lo hi m d l) mat x]
        m_OptixVolSampler := some (volumeSampler s a)
        m_OptixContext := some { ctx with volTexIn := some (s.nextHandle + 6) }
        nextHandle := s.nextHandle + 7
        trace := s.trace ++ [Call.markDirty (s.nextHandle + 4)] ++
          destroyOldSampler s.m_OptixVolSampler ++
          [Call.createTextureSamplerFromGLImage (s.nextHandle + 6) a] } := by
  unfold AddVolume at h
  split at h
  · rename_i ctx g mat hc hg hm
    simp only [Option.some.injEq] at h
    exact ⟨ctx, g, mat, hc, hg, hm, h.symm⟩
  · simp at h

theorem destroySubtree_of_isSubtree {t : Transform} (h : t.isSubtree = true) :
    destroySubtree t = some (subtreeDestroyCalls t) := by
  unfold Transform.isSubtree at h
  unfold destroySubtree subtreeDestroyCalls subtreeHandles
  cases hc : t.child with
  | none => simp [hc] at h
  | some gg =>
    simp only [hc] at h ⊢
    split at h
    · rename_i gi hgi
      simp [hgi]
    · simp at h

theorem destroySubtrees_of_isSubtree {ts : List Transform}
    (h : ∀ t ∈ ts, t.isSubtree = true) :
    destroySubtrees ts = some (ts.flatMap subtreeDestroyCalls) := by
  induction ts with
  | nil => rfl
  | cons t ts ih =>
    have h1 := destroySubtree_of_isSubtree (h t (List.mem_cons_self _ _))
    have h2 := ih (fun u hu => h u (List.mem_cons_of_mem _ hu))
    simp [destroySubtrees, h1, h2]


/-! ## Lemmas: the invariant -/

theorem subtreeHandles_meshSubtree (s : OptixScene) (geom : Geometry) (mat : Material)
    (x : Matrix4F) :
    subtreeHandles (meshSubtree s geom mat x) =
      [geom.id, s.nextHandle + 7, s.nextHandle + 8, s.nextHandle + 10] := rfl

theorem subtreeHandles_volumeSubtree (s : OptixScene) (geom : Geometry) (mat : Material)
    (x : Matrix4F) :
    subtreeHandles (volumeSubtree s geom mat x) =
      [geom.id, s.nextHandle + 2, s.nextHandle + 3, s.nextHandle + 5] := rfl

theorem meshGeometry_id (s : OptixScene) (model : Model) (vd nd : List Vector3DF)
    (tv : List Int3) : (meshGeometry s model vd nd tv).id = s.nextHandle + 6 := rfl

theorem volumeGeometry_id (s : OptixScene) (lo hi : Vector3DF) (m : Int) (d l : Bool) :
    (volumeGeometry s lo hi m d l).id = s.nextHandle := rfl

theorem nodup_append_fresh {l fresh : List Nat} {n : Nat} (hl : l.Nodup)
    (hb : ∀ h ∈ l, h < n) (hf : fresh.Nodup) (hn : ∀ h ∈ fresh, n ≤ h) :
    (l ++ fresh).Nodup := by
  rw [List.nodup_append]
  refine ⟨hl, hf, ?_⟩
  intro a ha hfa
  have h1 := hb a ha
  have h2 := hn a hfa
  omega

theorem inv_AddMaterial {L : Layout} {f c sh : String} {s s1 : OptixScene} {i : Int}
    (hs : Inv s) (h : AddMaterial L f c sh s = some (i, s1)) : Inv s1 := by
  obtain ⟨-, -, rfl⟩ := AddMaterial_eq h
  obtain ⟨ctx, hc, hv⟩ := hs.context
  obtain ⟨g, a, hg, ha, hlt, hnm⟩ := hs.mainGroup
  have e : liveHandles { s with
      nextHandle := s.nextHandle + 3
      m_OptixMats := s.m_OptixMats ++
        [{ id := s.nextHandle
           closestHit := (0, { id := s.nextHandle + 1, file := f ++ ".ptx", func := c })
           anyHit := (1, { id := s.nextHandle + 2, file := f ++ ".ptx", func := sh })
           mat := some (zeroBlob L.sizeofMaterialParams) }]
      m_OptixMatParams := s.m_OptixMatParams ++ [zeroBlob L.sizeofMaterialParams] } =
      liveHandles s ++ [s.nextHandle] := by
    simp [liveHandles]
  constructor
  · exact ⟨ctx, hc, hv⟩
  · exact ⟨g, a, hg, ha, by simp only; omega, hnm⟩
  · exact hs.buffer
  · exact hs.meshIntersect
  · exact hs.meshBBox
  · exact hs.volSurf
  · exact hs.volLevelSet
  · exact hs.volDeep
  · exact hs.volBBox
  · exact hs.subtrees
  · rw [e]
    exact nodup_append_fresh hs.handlesNodup hs.handlesFresh (by simp) (by simp)
  · rw [e]
    intro h hh
    rcases List.mem_append.1 hh with hh | hh
    · have := hs.handlesFresh h hh
      simp only; omega
    · simp only [List.mem_singleton] at hh
      simp only; omega
  · exact hs.samplers
  · exact hs.samplersNodup
  · intro h hh
    have := hs.samplersFresh h hh
    simp only; omega
  · exact hs.samplerAtlas
  · intro h hh
    have := hs.fixedFresh h hh
    simp only; omega
  · intro h hh
    rw [e]
    have h1 := hs.fixedFresh h hh
    have h2 := hs.fixedNotLive h hh
    simp only [List.mem_append, List.mem_singleton, not_or]
    exact ⟨h2, by omega⟩

theorem inv_AddPolygons {model : Model} {m : Int} {x : Matrix4F} {s s1 : OptixScene}
    (hs : Inv s) (h : AddPolygons model m x s = some s1) : Inv s1 := by
  obtain ⟨ctx0, g0, vd, nd, tv, mat, hc0, hg0, -, -, -, -, rfl⟩ := AddPolygons_eq h
  obtain ⟨ctx, hc, hv⟩ := hs.context
  obtain ⟨g, a, hg, ha, hlt, hnm⟩ := hs.mainGroup
  rw [hg0] at hg
  cases hg
  have e : (liveHandles { s with
        m_OptixMainGroup := some
          ((g0.setChildCount (s.m_OptixModels.length + s.m_OptixVolumes.length + 1)).setChild
            (s.m_OptixModels.length + s.m_OptixVolumes.length)
            (meshSubtree s (meshGeometry s model vd nd tv) mat x))
        m_OptixModels := s.m_OptixModels ++ [meshSubtree s (meshGeometry s model vd nd tv) mat x]
        nextHandle := s.nextHandle + 11
        trace := s.trace ++ [Call.markDirty (s.nextHandle + 9)] }).Perm
      (liveHandles s ++
        [s.nextHandle + 6, s.nextHandle + 7, s.nextHandle + 8, s.nextHandle + 10]) := by
    simp only [liveHandles, List.flatMap_append, List.flatMap_cons, List.flatMap_nil,
      List.append_nil, subtreeHandles_meshSubtree, List.append_assoc, meshGeometry_id]
    exact List.Perm.append_left _
      (List.perm_append_comm.trans (List.Perm.of_eq (List.append_assoc _ _ _)))
  constructor
  · exact ⟨ctx, hc, hv⟩
  · refine ⟨_, a, rfl, ha, by simp only; omega, ?_⟩
    simp only [markedDirty, List.filterMap_append, List.filterMap_cons, List.filterMap_nil,
      List.mem_append, List.mem_singleton, not_or]
    exact ⟨hnm, by omega⟩
  · exact hs.buffer
  · exact hs.meshIntersect
  · exact hs.meshBBox
  · exact hs.volSurf
  · exact hs.volLevelSet
  · exact hs.volDeep
  · exact hs.volBBox
  · intro t ht
    simp only [List.append_assoc, List.mem_append, List.mem_singleton] at ht
    rcases ht with ht | ht | ht
    · exact hs.subtrees t (List.mem_append_left _ ht)
    · subst ht; rfl
    · exact hs.subtrees t (List.mem_append_right _ ht)
  · rw [e.nodup_iff]
    exact nodup_append_fresh hs.handlesNodup hs.handlesFresh (by simp) (by simp)
  · intro h hh
    rw [e.mem_iff] at hh
    rcases List.mem_append.1 hh with hh | hh
    · have := hs.handlesFresh h hh
      simp only; omega
    · simp only [List.mem_cons, List.mem_singleton, List.not_mem_nil, or_false] at hh
      simp only; omega
  · simpa [samplersCreated, samplersDestroyed, List.filterMap_append] using hs.samplers
  · simpa [samplersCreated, List.filterMap_append] using hs.samplersNodup
  · intro h hh
    have : h ∈ (samplersCreated s.trace).map Prod.fst := by
      simpa [samplersCreated, List.filterMap_append] using hh
    have := hs.samplersFresh h this
    simp only; omega
  · intro smp hsmp
    have := hs.samplerAtlas smp hsmp
    simpa [samplersCreated, List.filterMap_append] using this
  · intro h hh
    have := hs.fixedFresh h hh
    simp only; omega
  · intro h hh
    rw [e.mem_iff]
    have h1 := hs.fixedFresh h hh
    have h2 := hs.fixedNotLive h hh
    simp only [List.mem_append, List.mem_cons, List.mem_singleton, List.not_mem_nil,
      or_false, not_or]
    exact ⟨h2, by omega, by omega, by omega, by omega⟩


theorem inv_AddVolume {a : Int} {lo hi : Vector3DF} {m : Int} {x : Matrix4F} {d l : Bool}
    {s s1 : OptixScene} (hs : Inv s) (h : AddVolume a lo hi m x d l s = some s1) : Inv s1 := by
  obtain ⟨ctx0, g0, mat, hc0, hg0, -, rfl⟩ := AddVolume_eq h
  obtain ⟨g, acc, hg, ha, hlt, hnm⟩ := hs.mainGroup
  rw [hg0] at hg
  cases hg
  have e : (liveHandles { s with
        m_OptixMainGroup := some
          ((g0.setChildCount (s.m_OptixModels.length + s.m_OptixVolumes.length + 1)).setChild
            (s.m_OptixModels.length + s.m_OptixVolumes.length)
            (volumeSubtree s (volumeGeometry s lo hi m d l) mat x))
        m_OptixVolumes := s.m_OptixVolumes ++
          [volumeSubtree s (volumeGeometry s lo hi m d l) mat x]
        m_OptixVolSampler := some (volumeSampler s a)
        m_OptixContext := some { ctx0 with volTexIn := some (s.nextHandle + 6) }
        nextHandle := s.nextHandle + 7
        trace := s.trace ++ [Call.markDirty (s.nextHandle + 4)] ++
          destroyOldSampler s.m_OptixVolSampler ++
          [Call.createTextureSamplerFromGLImage (s.nextHandle + 6) a] }).Perm
      (liveHandles s ++
        [s.nextHandle, s.nextHandle + 2, s.nextHandle + 3, s.nextHandle + 5]) := by
    simp only [liveHandles, List.flatMap_append, List.flatMap_cons, List.flatMap_nil,
      List.append_nil, subtreeHandles_volumeSubtree, List.append_assoc, volumeGeometry_id]
    exact List.Perm.append_left _ (List.Perm.append_left _ List.perm_append_comm)
  have hcr : samplersCreated (s.trace ++ [Call.markDirty (s.nextHandle + 4)] ++
      destroyOldSampler s.m_OptixVolSampler ++
      [Call.createTextureSamplerFromGLImage (s.nextHandle + 6) a]) =
      samplersCreated s.trace ++ [(s.nextHandle + 6, a)] := by
    cases s.m_OptixVolSampler <;>
      simp [samplersCreated, List.filterMap_append, destroyOldSampler]
  have hde : samplersDestroyed (s.trace ++ [Call.markDirty (s.nextHandle + 4)] ++
      destroyOldSampler s.m_OptixVolSampler ++
      [Call.createTextureSamplerFromGLImage (s.nextHandle + 6) a]) =
      samplersDestroyed s.trace ++ (s.m_OptixVolSampler.map (fun x => x.id)).toList := by
    cases s.m_OptixVolSampler <;>
      simp [samplersDestroyed, List.filterMap_append, destroyOldSampler]
  have hmk : markedDirty (s.trace ++ [Call.markDirty (s.nextHandle + 4)] ++
      destroyOldSampler s.m_OptixVolSampler ++
      [Call.createTextureSamplerFromGLImage (s.nextHandle + 6) a]) =
      markedDirty s.trace ++ [s.nextHandle + 4] := by
    cases s.m_OptixVolSampler <;>
      simp [markedDirty, List.filterMap_append, destroyOldSampler]
  constructor
  · exact ⟨_, rfl, rfl⟩
  · refine ⟨_, acc, rfl, ha, by simp only; omega, ?_⟩
    simp only [hmk, List.mem_append, List.mem_singleton, not_or]
    exact ⟨hnm, by omega⟩
  · exact hs.buffer
  · exact hs.meshIntersect
  · exact hs.meshBBox
  · exact hs.volSurf
  · exact hs.volLevelSet
  · exact hs.volDeep
  · exact hs.volBBox
  · intro t ht
    simp only [List.mem_append, List.mem_singleton] at ht
    rcases ht with ht | ht | ht
    · exact hs.subtrees t (List.mem_append_left _ ht)
    · exact hs.subtrees t (List.mem_append_right _ ht)
    · subst ht; rfl
  · rw [e.nodup_iff]
    exact nodup_append_fresh hs.handlesNodup hs.handlesFresh (by simp) (by simp)
  · intro h hh
    rw [e.mem_iff] at hh
    rcases List.mem_append.1 hh with hh | hh
    · have := hs.handlesFresh h hh
      simp only; omega
    · simp only [List.mem_cons, List.mem_singleton, List.not_mem_nil, or_false] at hh
      simp only; omega
  · simp only [hcr, hde, List.map_append, List.map_cons, List.map_nil, hs.samplers,
      Option.map_some', Option.toList, volumeSampler]
  · simp only [hcr, List.map_append, List.map_cons, List.map_nil]
    exact nodup_append_fresh hs.samplersNodup hs.samplersFresh (by simp) (by simp)
  · intro h hh
    simp only [hcr, List.map_append, List.map_cons, List.map_nil, List.mem_append,
      List.mem_singleton] at hh
    rcases hh with hh | hh
    · have := hs.samplersFresh h hh
      simp only; omega
    · simp only; omega
  · intro smp hsmp
    simp only [Option.some.injEq] at hsmp
    subst hsmp
    change (samplersCreated (s.trace ++ [Call.markDirty (s.nextHandle + 4)] ++
      destroyOldSampler s.m_OptixVolSampler ++
      [Call.createTextureSamplerFromGLImage (s.nextHandle + 6) a])).getLast? =
      some (s.nextHandle + 6, a)
    rw [hcr]
    simp
  · intro h hh
    have hh2 : h ∈ fixedHandles s := by
      simpa [fixedHandles, hc0] using hh
    have := hs.fixedFresh h hh2
    simp only; omega
  · intro h hh
    have hh2 : h ∈ fixedHandles s := by
      simpa [fixedHandles, hc0] using hh
    rw [e.mem_iff]
    have h1 := hs.fixedFresh h hh2
    have h2 := hs.fixedNotLive h hh2
    simp only [List.mem_append, List.mem_cons, List.mem_singleton, List.not_mem_nil,
      or_false, not_or]
    exact ⟨h2, by omega, by omega, by omega, by omega⟩

theorem filterMap_flatMap_subtreeDestroyCalls {β : Type} (f : Call → Option β)
    (hf : ∀ k h, k ≠ NodeKind.textureSampler → f (Call.destroy k h) = none)
    (ts : List Transform) : (ts.flatMap subtreeDestroyCalls).filterMap f = [] := by
  rw [List.filterMap_eq_nil_iff]
  intro c hc
  rw [List.mem_flatMap] at hc
  obtain ⟨t, -, hct⟩ := hc
  unfold subtreeDestroyCalls subtreeHandles at hct
  split at hct
  · split at hct
    · simp only [List.zipWith_cons_cons, List.zipWith_nil_right, List.mem_cons,
        List.mem_singleton, List.not_mem_nil, or_false] at hct
      rcases hct with rfl | rfl | rfl | rfl <;> exact hf _ _ (by decide)
    · simp at hct
  · simp at hct

theorem inv_ClearGraph {s s1 : OptixScene} (hs : Inv s) (h : ClearGraph s = some s1) :
    Inv s1 := by
  unfold ClearGraph at h
  rw [destroySubtrees_of_isSubtree (fun t ht => hs.subtrees t (List.mem_append_left _ ht)),
    destroySubtrees_of_isSubtree (fun t ht => hs.subtrees t (List.mem_append_right _ ht))] at h
  simp only [Option.some.injEq] at h
  subst h
  obtain ⟨g, acc, hg, ha, hlt, hnm⟩ := hs.mainGroup
  have hcr : samplersCreated (s.trace ++ s.m_OptixModels.flatMap subtreeDestroyCalls ++
      s.m_OptixVolumes.flatMap subtreeDestroyCalls ++
      s.m_OptixMats.map (fun m => Call.destroy NodeKind.material m.id)) =
      samplersCreated s.trace := by
    simp only [samplersCreated, List.filterMap_append]
    rw [filterMap_flatMap_subtreeDestroyCalls _ (fun _ _ _ => rfl),
      filterMap_flatMap_subtreeDestroyCalls _ (fun _ _ _ => rfl)]
    simp [List.filterMap_map, Function.comp_def]
  have hde : samplersDestroyed (s.trace ++ s.m_OptixModels.flatMap subtreeDestroyCalls ++
      s.m_OptixVolumes.flatMap subtreeDestroyCalls ++
      s.m_OptixMats.map (fun m => Call.destroy NodeKind.material m.id)) =
      samplersDestroyed s.trace := by
    simp only [samplersDestroyed, List.filterMap_append]
    rw [filterMap_flatMap_subtreeDestroyCalls _
        (fun k _ hk => by cases k <;> first | rfl | exact absurd rfl hk),
      filterMap_flatMap_subtreeDestroyCalls _
        (fun k _ hk => by cases k <;> first | rfl | exact absurd rfl hk)]
    simp [List.filterMap_map, Function.comp_def]
  have hmk : markedDirty (s.trace ++ s.m_OptixModels.flatMap subtreeDestroyCalls ++
      s.m_OptixVolumes.flatMap subtreeDestroyCalls ++
      s.m_OptixMats.map (fun m => Call.destroy NodeKind.material m.id)) =
      markedDirty s.trace := by
    simp only [markedDirty, List.filterMap_append]
    rw [filterMap_flatMap_subtreeDestroyCalls _ (fun _ _ _ => rfl),
      filterMap_flatMap_subtreeDestroyCalls _ (fun _ _ _ => rfl)]
    simp [List.filterMap_map, Function.comp_def]
  constructor
  · exact hs.context
  · exact ⟨g, acc, hg, ha, hlt, by simp only [hmk]; exact hnm⟩
  · exact hs.buffer
  · exact hs.meshIntersect
  · exact hs.meshBBox
  · exact hs.volSurf
  · exact hs.volLevelSet
  · exact hs.volDeep
  · exact hs.volBBox
  · intro t ht
    simp at ht
  · simp [liveHandles]
  · simp [liveHandles]
  · simp only [hcr, hde]; exact hs.samplers
  · simp only [hcr]; exact hs.samplersNodup
  · simp only [hcr]; exact hs.samplersFresh
  · simp only [hcr]; exact hs.samplerAtlas
  · exact hs.fixedFresh
  · intro h _
    simp [liveHandles]


theorem InitializeOptix_ctor (L : Layout) (w h : Int) :
    ∃ s0, InitializeOptix L w h OptixScene.ctor = some s0 ∧
      s0.m_OptixModels = [] ∧ s0.m_OptixVolumes = [] ∧ s0.m_OptixMats = [] ∧
      s0.m_OptixMatParams = [] ∧ s0.m_OptixVolSampler = none ∧ s0.nextHandle = 15 ∧
      (∃ c, s0.m_OptixContext = some c ∧ c.volTexIn = none) ∧
      s0.m_OptixMainGroup = some
        { id := 13
          acceleration := some
            { id := 14, builder := "NoAccel", traverser := "NoAccel", properties := [] }
          children := [] } ∧
      (∃ b, s0.m_OptixBuffer = some b ∧ b.format = RTformat.RT_FORMAT_FLOAT3) ∧
      s0.m_OptixMeshIntersectProg.map (fun p => p.func) = some "mesh_intersect" ∧
      s0.m_OptixMeshBBoxProg.map (fun p => p.func) = some "mesh_bounds" ∧
      s0.m_OptixVolIntersectSurfProg.map (fun p => p.func) = some "vol_intersect" ∧
      s0.m_OptixVolIntersectLevelSetProg.map (fun p => p.func) = some "vol_levelset" ∧
      s0.m_OptixVolIntersectDeepProg.map (fun p => p.func) = some "vol_deep" ∧
      s0.m_OptixVolBBoxProg.map (fun p => p.func) = some "vol_bounds" ∧
      samplersCreated s0.trace = [] ∧ samplersDestroyed s0.trace = [] ∧
      markedDirty s0.trace = [] ∧ (∀ h ∈ fixedHandles s0, h < 15) := by
  simp [InitializeOptix, initContextAndPrograms, declareVariables, createSeedBuffer,
    loadIntersectionPrograms, createMainGroup, CreateOutputOptix, CreateProgramOptix, setContext,
    SetSample, SetLight, SetShading, SetVolumeParams, SetCamera, AssignGVDB, zeroBlob,
    rtuGetSizeForRTformat, bind, Option.bind, OptixScene.ctor, Group.setChildCount,
    samplersCreated, samplersDestroyed, markedDirty, fixedHandles]
  intro h hh
  omega

theorem inv_InitializeOptix {L : Layout} {w h : Int} {s0 : OptixScene}
    (h0 : InitializeOptix L w h OptixScene.ctor = some s0) : Inv s0 := by
  obtain ⟨s, hs, h1, h2, h3, h4, h5, h6, ⟨c, hc, hv⟩, h8, ⟨b, hb, hfmt⟩, p1, p2, p3, p4, p5, p6,
    t1, t2, t3, fx⟩ := InitializeOptix_ctor L w h
  rw [h0] at hs
  cases hs
  constructor
  · exact ⟨c, hc, by rw [hv, h5]; rfl⟩
  · exact ⟨_, _, h8, rfl, by rw [h6]; decide, by rw [t3]; simp⟩
  · exact ⟨b, hb, hfmt⟩
  · exact p1
  · exact p2
  · exact p3
  · exact p4
  · exact p5
  · exact p6
  · rw [h1, h2]; simp
  · simp [liveHandles, h1, h2, h3]
  · simp [liveHandles, h1, h2, h3]
  · rw [t1, t2, h5]; rfl
  · rw [t1]; simp
  · rw [t1]; simp
  · rw [h5]; simp
  · rw [h6]; exact fx
  · simp [liveHandles, h1, h2, h3]

theorem inv_step {L : Layout} {op : Op} {s s1 : OptixScene} (hs : Inv s)
    (h : step L op s = some s1) : Inv s1 := by
  cases op with
  | ClearGraph => exact inv_ClearGraph hs h
  | AddMaterial f c sh =>
    simp only [step, Option.map_eq_some', Prod.exists, exists_eq_right] at h
    obtain ⟨i, h⟩ := h
    exact inv_AddMaterial hs h
  | SetMaterialParams n => exact inv_of_frame hs (frame_SetMaterialParams h)
  | SetParams n b => exact inv_of_frame hs (frame_SetParams h)
  | AddPolygons m mat x => exact inv_AddPolygons hs h
  | AddVolume a lo hi mat x d l => exact inv_AddVolume hs h
  | ValidateGraph v c => exact inv_of_frame hs (frame_ValidateGraph h)
  | SetCamera p u v w a => exact inv_of_frame hs (frame_SetCamera h)
  | SetSample f sm => exact inv_of_frame hs (frame_SetSample h)
  | SetLight p => exact inv_of_frame hs (frame_SetLight h)
  | SetShading t => exact inv_of_frame hs (frame_SetShading h)
  | SetVolumeParams st e c => exact inv_of_frame hs (frame_SetVolumeParams h)
  | SetTransferFunc src => exact inv_of_frame hs (frame_SetTransferFunc h)
  | AssignGVDB sz d => exact inv_of_frame hs (frame_AssignGVDB h)
  | Launch ok => exact inv_of_frame hs (frame_Launch h)
  | ReadOutputTex t => exact inv_of_frame hs (frame_ReadOutputTex h)

theorem run_cons {L : Layout} {op : Op} {ops : List Op} {s s2 : OptixScene}
    (h : run L (op :: ops) s = some s2) :
    ∃ s1, step L op s = some s1 ∧ run L ops s1 = some s2 := by
  unfold run at h
  cases hst : step L op s with
  | none => simp [hst] at h
  | some s1 => exact ⟨s1, rfl, by simpa [hst] using h⟩

theorem inv_run {L : Layout} {ops : List Op} {s s1 : OptixScene} (hs : Inv s)
    (h : run L ops s = some s1) : Inv s1 := by
  induction ops generalizing s with
  | nil =>
    simp only [run, Option.some.injEq] at h
    subst h
    exact hs
  | cons op ops ih =>
    obtain ⟨s2, h1, h2⟩ := run_cons h
    exact ih (inv_step hs h1) h2

theorem inv_of_reachable {L : Layout} {s : OptixScene} (h : Reachable L s) : Inv s := by
  obtain ⟨w, h, s0, ops, h0, hr⟩ := h
  exact inv_run (inv_InitializeOptix h0) hr

theorem run_append {L : Layout} {ops1 ops2 : List Op} {s s1 s2 : OptixScene}
    (h1 : run L ops1 s = some s1) (h2 : run L ops2 s1 = some s2) :
    run L (ops1 ++ ops2) s = some s2 := by
  induction ops1 generalizing s with
  | nil =>
    simp only [run, Option.some.injEq] at h1
    subst h1
    exact h2
  | cons op ops ih =>
    obtain ⟨s3, h3, h4⟩ := run_cons h1
    simp only [List.cons_append, run, h3]
    exact ih h4

theorem reachable_run {L : Layout} {ops : List Op} {s s1 : OptixScene} (hs : Reachable L s)
    (h : run L ops s = some s1) : Reachable L s1 := by
  obtain ⟨w, hh, s0, ops0, h0, hr⟩ := hs
  exact ⟨w, hh, s0, ops0 ++ ops, h0, run_append hr h⟩


/-! ## Lemmas: the shape of one call -/

theorem step_cases {L : Layout} {op : Op} {s s1 : OptixScene} (h : step L op s = some s1) :
    (op = Op.ClearGraph ∧ ClearGraph s = some s1) ∨
    (∃ f c sh i, op = Op.AddMaterial f c sh ∧ AddMaterial L f c sh s = some (i, s1)) ∨
    (∃ m mat x, op = Op.AddPolygons m mat x ∧ AddPolygons m mat x s = some s1) ∨
    (∃ a lo hi mat x d l, op = Op.AddVolume a lo hi mat x d l ∧
      AddVolume a lo hi mat x d l s = some s1) ∨
    (op.addsSubtree = false ∧ op.isClearGraph = false ∧ newTransform op s1 = [] ∧
      Frame s s1) := by
  cases op with
  | ClearGraph => exact Or.inl ⟨rfl, h⟩
  | AddMaterial f c sh =>
    simp only [step, Option.map_eq_some', Prod.exists, exists_eq_right] at h
    obtain ⟨i, h⟩ := h
    exact Or.inr (Or.inl ⟨f, c, sh, i, rfl, h⟩)
  | AddPolygons m mat x => exact Or.inr (Or.inr (Or.inl ⟨m, mat, x, rfl, h⟩))
  | AddVolume a lo hi mat x d l =>
    exact Or.inr (Or.inr (Or.inr (Or.inl ⟨a, lo, hi, mat, x, d, l, rfl, h⟩)))
  | SetMaterialParams n =>
    exact Or.inr (Or.inr (Or.inr (Or.inr ⟨rfl, rfl, rfl, frame_SetMaterialParams h⟩)))
  | SetParams n b =>
    exact Or.inr (Or.inr (Or.inr (Or.inr ⟨rfl, rfl, rfl, frame_SetParams h⟩)))
  | ValidateGraph v c =>
    exact Or.inr (Or.inr (Or.inr (Or.inr ⟨rfl, rfl, rfl, frame_ValidateGraph h⟩)))
  | SetCamera p u v w a =>
    exact Or.inr (Or.inr (Or.inr (Or.inr ⟨rfl, rfl, rfl, frame_SetCamera h⟩)))
  | SetSample f sm =>
    exact Or.inr (Or.inr (Or.inr (Or.inr ⟨rfl, rfl, rfl, frame_SetSample h⟩)))
  | SetLight p =>
    exact Or.inr (Or.inr (Or.inr (Or.inr ⟨rfl, rfl, rfl, frame_SetLight h⟩)))
  | SetShading t =>
    exact Or.inr (Or.inr (Or.inr (Or.inr ⟨rfl, rfl, rfl, frame_SetShading h⟩)))
  | SetVolumeParams st e c =>
    exact Or.inr (Or.inr (Or.inr (Or.inr ⟨rfl, rfl, rfl, frame_SetVolumeParams h⟩)))
  | SetTransferFunc src =>
    exact Or.inr (Or.inr (Or.inr (Or.inr ⟨rfl, rfl, rfl, frame_SetTransferFunc h⟩)))
  | AssignGVDB sz d =>
    exact Or.inr (Or.inr (Or.inr (Or.inr ⟨rfl, rfl, rfl, frame_AssignGVDB h⟩)))
  | Launch ok =>
    exact Or.inr (Or.inr (Or.inr (Or.inr ⟨rfl, rfl, rfl, frame_Launch h⟩)))
  | ReadOutputTex t =>
    exact Or.inr (Or.inr (Or.inr (Or.inr ⟨rfl, rfl, rfl, frame_ReadOutputTex h⟩)))

/-! ## C1: the children of the top-level group -/

theorem setChild_first (c : List (Option Transform)) (t : Transform) :
    (c.take 1 ++ List.replicate (1 - c.length) none).set 0 (some t) = [some t] := by
  cases c with
  | nil => rfl
  | cons a c => simp

theorem setChild_next (c : List (Option Transform)) (t : Transform) :
    (c.take (c.length + 1) ++ List.replicate (c.length + 1 - c.length) none).set c.length
      (some t) = c ++ [some t] := by
  rw [List.take_of_length_le (Nat.le_succ _), Nat.add_sub_cancel_left]
  simp

/-- What one call that is not `ClearGraph` does to the lists of subtrees and to
the top-level group: nothing, or one new transform in the slot numbered by the
number of subtrees held before. -/
theorem step_children {L : Layout} {op : Op} {s s1 : OptixScene}
    (hnc : op.isClearGraph = false) (h : step L op s = some s1) :
    (op.addsSubtree = false ∧ newTransform op s1 = [] ∧
      s1.m_OptixModels.length + s1.m_OptixVolumes.length =
        s.m_OptixModels.length + s.m_OptixVolumes.length ∧
      s1.m_OptixMainGroup = s.m_OptixMainGroup ∧ s.nextHandle ≤ s1.nextHandle) ∨
    (op.addsSubtree = true ∧ ∃ t g, newTransform op s1 = [t] ∧
      s1.m_OptixModels.length + s1.m_OptixVolumes.length =
        s.m_OptixModels.length + s.m_OptixVolumes.length + 1 ∧
      s.m_OptixMainGroup = some g ∧
      s1.m_OptixMainGroup = some
        ((g.setChildCount (s.m_OptixModels.length + s.m_OptixVolumes.length + 1)).setChild
          (s.m_OptixModels.length + s.m_OptixVolumes.length) t) ∧
      s.nextHandle ≤ t.id ∧ t.id < s1.nextHandle) := by
  rcases step_cases h with ⟨rfl, -⟩ | ⟨f, c, sh, i, rfl, h1⟩ | ⟨m, mat, x, rfl, h1⟩ |
    ⟨a, lo, hi, mat, x, d, l, rfl, h1⟩ | ⟨h1, -, h3, fr⟩
  · simp [Op.isClearGraph] at hnc
  · obtain ⟨-, -, rfl⟩ := AddMaterial_eq h1
    exact Or.inl ⟨rfl, rfl, rfl, rfl, Nat.le_add_right _ _⟩
  · obtain ⟨ctx, g, vd, nd, tv, mt, -, hg, -, -, -, -, rfl⟩ := AddPolygons_eq h1
    refine Or.inr ⟨rfl, _, g, ?_, ?_, hg, rfl, ?_, ?_⟩
    · simp [newTransform]
    · simp only [List.length_append, List.length_singleton]; omega
    · show s.nextHandle ≤ s.nextHandle + 10
      omega
    · show s.nextHandle + 10 < s.nextHandle + 11
      omega
  · obtain ⟨ctx, g, mt, -, hg, -, rfl⟩ := AddVolume_eq h1
    refine Or.inr ⟨rfl, _, g, ?_, ?_, hg, rfl, ?_, ?_⟩
    · simp [newTransform]
    · simp only [List.length_append, List.length_singleton]; omega
    · show s.nextHandle ≤ s.nextHandle + 5
      omega
    · show s.nextHandle + 5 < s.nextHandle + 7
      omega
  · exact Or.inl ⟨h1, h3, by rw [fr.models, fr.volumes], fr.mainGroup, fr.nextHandle⟩

/-- The children of the top-level group along a sequence of calls without
`ClearGraph`, started in a state that holds `pre.length` subtrees. -/
theorem run_children {L : Layout} (ops : List Op) :
    ∀ (s s1 : OptixScene) (pre : List Transform),
      (∀ op ∈ ops, op.isClearGraph = false) →
      run L ops s = some s1 →
      s.m_OptixModels.length + s.m_OptixVolumes.length = pre.length →
      (∃ g, s.m_OptixMainGroup = some g ∧ (pre ≠ [] → g.children = pre.map some)) →
      (∀ t ∈ pre, t.id < s.nextHandle) →
      pre.Pairwise (fun a b => a.id < b.id) →
      s1.m_OptixModels.length + s1.m_OptixVolumes.length =
        (pre ++ createdTransforms L ops s).length ∧
      (createdTransforms L ops s).length = (ops.filter Op.addsSubtree).length ∧
      (∃ g1, s1.m_OptixMainGroup = some g1 ∧
        (pre ++ createdTransforms L ops s ≠ [] →
          g1.children = (pre ++ createdTransforms L ops s).map some)) ∧
      (pre ++ createdTransforms L ops s).Pairwise (fun a b => a.id < b.id) := by
  induction ops with
  | nil =>
    intro s s1 pre _ hrun hlen hg _ hpw
    simp only [run, Option.some.injEq] at hrun
    subst hrun
    simpa [createdTransforms, hlen, hpw] using hg
  | cons op ops ih =>
    intro s s1 pre hnc hrun hlen hg hfresh hpw
    obtain ⟨s2, hstep, hrest⟩ := run_cons hrun
    have hnc1 := hnc op (List.mem_cons_self _ _)
    have hnc2 : ∀ o ∈ ops, o.isClearGraph = false :=
      fun o ho => hnc o (List.mem_cons_of_mem _ ho)
    obtain ⟨g, hg1, hg2⟩ := hg
    have hct : createdTransforms L (op :: ops) s =
        newTransform op s2 ++ createdTransforms L ops s2 := by
      simp [createdTransforms, hstep]
    rcases step_children hnc1 hstep with ⟨ha, hn, hl, hm, hnx⟩ | ⟨ha, t, g0, hn, hl, hm0, hm, ht1, ht2⟩
    · have := ih s2 s1 pre hnc2 hrest (by rw [hl, hlen]) ⟨g, by rw [hm, hg1], hg2⟩
        (fun t ht => lt_of_lt_of_le (hfresh t ht) hnx) hpw
      rw [hct, hn, List.nil_append]
      simpa [List.filter_cons, ha] using this
    · rw [hg1] at hm0
      cases hm0
      have hch : ((g.setChildCount (s.m_OptixModels.length + s.m_OptixVolumes.length + 1)).setChild
          (s.m_OptixModels.length + s.m_OptixVolumes.length) t).children =
          (pre ++ [t]).map some := by
        cases pre with
        | nil =>
          simp only [List.length_nil] at hlen
          simp only [hlen, Group.setChild, Group.setChildCount, Nat.zero_add]
          exact setChild_first _ _
        | cons p pre =>
          have hgc := hg2 (by simp)
          have hl2 : s.m_OptixModels.length + s.m_OptixVolumes.length = g.children.length := by
            rw [hlen, hgc, List.length_map]
          simp only [hl2, Group.setChild, Group.setChildCount]
          rw [setChild_next, hgc]
          simp
      have hpw2 : (pre ++ [t]).Pairwise (fun a b => a.id < b.id) := by
        rw [List.pairwise_append]
        refine ⟨hpw, List.pairwise_singleton _ _, ?_⟩
        intro a ha b hb
        simp only [List.mem_singleton] at hb
        subst hb
        exact lt_of_lt_of_le (hfresh a ha) ht1
      have := ih s2 s1 (pre ++ [t]) hnc2 hrest (by rw [hl, hlen]; simp) ⟨_, hm, fun _ => hch⟩
        (by
          intro u hu
          rcases List.mem_append.1 hu with hu | hu
          · exact lt_trans (lt_of_lt_of_le (hfresh u hu) ht1) ht2
          · simp only [List.mem_singleton] at hu
            subst hu
            exact ht2) hpw2
      rw [hct, hn]
      simpa [List.filter_cons, ha, List.append_assoc] using this

/-- C1: start from a scene just initialised by `InitializeOptix`, or just
emptied by `ClearGraph` from any reachable state, and make any sequence of calls
other than `ClearGraph` that all return (so every material index is valid), `N`
of them being `AddPolygons` or `AddVolume`, `N ≥ 1`.  Then the top-level group
has exactly `N` child slots and slot `i` holds the transform created by the
`(i+1)`-th of these `N` calls; the transforms are pairwise distinct nodes. -/
theorem C1_children_follow_call_order (L : Layout) (s0 s1 : OptixScene) (ops : List Op)
    (hstart : (∃ w h, InitializeOptix L w h OptixScene.ctor = some s0) ∨
      (∃ s, Reachable L s ∧ ClearGraph s = some s0))
    (hops : ∀ op ∈ ops, op.isClearGraph = false)
    (hrun : run L ops s0 = some s1)
    (hN : 1 ≤ (ops.filter Op.addsSubtree).length) :
    ∃ g, s1.m_OptixMainGroup = some g ∧
      g.childCount = (ops.filter Op.addsSubtree).length ∧
      (createdTransforms L ops s0).length = (ops.filter Op.addsSubtree).length ∧
      g.children = (createdTransforms L ops s0).map some ∧
      (∀ i, i < (ops.filter Op.addsSubtree).length →
        g.children[i]? = (createdTransforms L ops s0)[i]?.map some) ∧
      (createdTransforms L ops s0).Pairwise (fun a b => a.id < b.id) := by
  have h0 : s0.m_OptixModels.length + s0.m_OptixVolumes.length = 0 ∧
      ∃ g, s0.m_OptixMainGroup = some g := by
    rcases hstart with ⟨w, h, hi⟩ | ⟨s, hr, hc⟩
    · obtain ⟨s, hs, h1, h2, -, -, -, -, -, h8, -⟩ := InitializeOptix_ctor L w h
      rw [hi] at hs
      cases hs
      exact ⟨by simp [h1, h2], _, h8⟩
    · have hi := inv_of_reachable hr
      obtain ⟨g, a, hg, -⟩ := hi.mainGroup
      unfold ClearGraph at hc
      rw [destroySubtrees_of_isSubtree (fun t ht => hi.subtrees t (List.mem_append_left _ ht)),
        destroySubtrees_of_isSubtree
          (fun t ht => hi.subtrees t (List.mem_append_right _ ht))] at hc
      simp only [Option.some.injEq] at hc
      subst hc
      exact ⟨rfl, g, hg⟩
  obtain ⟨hlen, g, hg⟩ := h0
  obtain ⟨-, h2, ⟨g1, hg1, h3⟩, h4⟩ := run_children ops s0 s1 [] hops hrun hlen
    ⟨g, hg, fun h => absurd rfl h⟩ (by simp) List.Pairwise.nil
  simp only [List.nil_append] at h3 h4
  have hne : createdTransforms L ops s0 ≠ [] := by
    intro he
    rw [he] at h2
    simp only [List.length_nil] at h2
    omega
  have hch := h3 hne
  refine ⟨g1, hg1, ?_, h2, hch, ?_, h4⟩
  · rw [Group.childCount, hch, List.length_map, h2]
  · intro i _
    rw [hch, List.getElem?_map]


theorem C1_witness :
    Reachable layout0 scene1 ∧ mainGroup1.childCount = 2 ∧
    ClearGraph scene1 = some scene1Cleared ∧
    run layout0 rebuild scene1Cleared = some scene2 ∧
    (rebuild.filter Op.addsSubtree).length = 1 ∧
    scene2.m_OptixMainGroup.map Group.childCount = some 1 ∧
    scene2.m_OptixMainGroup.map (fun g => g.children) =
      some ((createdTransforms layout0 rebuild scene1Cleared).map some) := by
  have hr : Reachable layout0 scene1 := ⟨4, 3, scene0, build1, rfl, rfl⟩
  obtain ⟨g, hg, hcount, -, hch, -, -⟩ :=
    C1_children_follow_call_order layout0 scene1Cleared scene2 rebuild
      (Or.inr ⟨scene1, hr, rfl⟩) (by decide) rfl (by decide)
  refine ⟨hr, by decide, rfl, rfl, by decide, ?_, ?_⟩
  · rw [hg, Option.map_some', hcount]
    rfl
  · rw [hg, Option.map_some', hch]


/-- `InitializeOptix` does not empty the lists of subtrees.  Called a second time,
on `scene1` (which holds a mesh and a volume), it installs a new top-level group
without children while both lists keep their entry; the next `AddPolygons` then
declares three slots and fills the third only.  The statement above is about the
initialisation of a newly constructed scene. -/
theorem InitializeOptix_again_keeps_subtree_lists :
    ((InitializeOptix layout0 4 3 scene1).bind (AddPolygons triangle 0 [])).map
      (fun s => (s.m_OptixModels.length, s.m_OptixVolumes.length,
        s.m_OptixMainGroup.map (fun g => g.children.map (Option.map (fun t => t.id))))) =
      some (2, 1, some [none, none, some 63]) := by
  decide

/-! ## C2: the intersection program of a volume -/

/-- C2: in a reachable state, for every pair of flags and every valid material
index, `AddVolume` returns and the geometry of the subtree it appends is bound to
the program `vol_deep` when `deep` is set (whatever `lset` is), to `vol_levelset`
when only `lset` is set, and to `vol_intersect` when neither is; these are the
programs held in the three members loaded by `InitializeOptix`.  Its bounding-box
program is `vol_bounds` and its primitive count is 1. -/
theorem C2_AddVolume_intersection_program (L : Layout) (s : OptixScene)
    (hs : Reachable L s) (atlas_glid : Int) (vmin vmax : Vector3DF) (mat_id : Int)
    (xform : Matrix4F) (deep lset : Bool) (mat : Material)
    (hm : vecAt s.m_OptixMats mat_id = some mat) :
    ∃ s1 t gg gi p pb,
      AddVolume atlas_glid vmin vmax mat_id xform deep lset s = some s1 ∧
      s1.m_OptixVolumes = s.m_OptixVolumes ++ [t] ∧
      t.child = some gg ∧ gg.children = [some gi] ∧
      gi.geometry.intersectionProgram = some p ∧
      p.func = (if deep then "vol_deep" else if lset then "vol_levelset" else "vol_intersect") ∧
      gi.geometry.intersectionProgram =
        (if deep then s.m_OptixVolIntersectDeepProg
         else if lset then s.m_OptixVolIntersectLevelSetProg
         else s.m_OptixVolIntersectSurfProg) ∧
      gi.geometry.boundingBoxProgram = some pb ∧ pb.func = "vol_bounds" ∧
      gi.geometry.boundingBoxProgram = s.m_OptixVolBBoxProg ∧
      gi.geometry.primitiveCount = 1 := by
  have hi := inv_of_reachable hs
  obtain ⟨ctx, hc, -⟩ := hi.context
  obtain ⟨g, a, hg, -⟩ := hi.mainGroup
  have h1 := AddVolume_of atlas_glid vmin vmax xform deep lset hc hg hm
  obtain ⟨pd, hpd, hpdf⟩ := Option.map_eq_some'.1 hi.volDeep
  obtain ⟨pl, hpl, hplf⟩ := Option.map_eq_some'.1 hi.volLevelSet
  obtain ⟨ps, hps, hpsf⟩ := Option.map_eq_some'.1 hi.volSurf
  obtain ⟨pb, hpb, hpbf⟩ := Option.map_eq_some'.1 hi.volBBox
  refine ⟨_, volumeSubtree s (volumeGeometry s vmin vmax mat_id deep lset) mat xform, _, _,
    if deep then pd else if lset then pl else ps, pb, h1, rfl, rfl, rfl, ?_, ?_, rfl, hpb,
    hpbf, rfl, rfl⟩
  · show (if deep = true then s.m_OptixVolIntersectDeepProg
      else if lset = true then s.m_OptixVolIntersectLevelSetProg
      else s.m_OptixVolIntersectSurfProg) = _
    cases deep <;> cases lset <;> simp [hpd, hpl, hps]
  · cases deep <;> cases lset <;> simp [hpdf, hplf, hpsf]

theorem C2_witness :
    Reachable layout0 scene1 ∧ vecAt scene1.m_OptixMats 1 = some material1 ∧
    ∃ s1 t gg gi p,
      AddVolume 9 (vec3 0 0 0) (vec3 1 1 1) 1 [] true true scene1 = some s1 ∧
      s1.m_OptixVolumes = scene1.m_OptixVolumes ++ [t] ∧
      t.child = some gg ∧ gg.children = [some gi] ∧
      gi.geometry.intersectionProgram = some p ∧ p.func = "vol_deep" ∧
      gi.geometry.primitiveCount = 1 := by
  have hr : Reachable layout0 scene1 := ⟨4, 3, scene0, build1, rfl, rfl⟩
  obtain ⟨s1, t, gg, gi, p, pb, h1, h2, h3, h4, h5, h6, -, -, -, -, h11⟩ :=
    C2_AddVolume_intersection_program layout0 scene1 hr 9 (vec3 0 0 0) (vec3 1 1 1) 1 []
      true true material1 rfl
  exact ⟨hr, rfl, s1, t, gg, gi, p, h1, h2, h3, h4, h5, h6, h11⟩


/-! ## C3: the volume sampler -/

theorem filter_fst_not_mem (de : List Nat) (init : List (Nat × Int))
    (h : init.map Prod.fst = de) :
    init.filter (fun p => decide (p.1 ∉ de)) = [] := by
  rw [List.filter_eq_nil_iff]
  intro p hp
  have : p.1 ∈ de := by
    rw [← h]
    exact List.mem_map_of_mem _ hp
  simp [this]

/-- In a state that satisfies the invariant and holds a sampler, that sampler is
the only live one, every other sampler created was destroyed exactly once, and
`volTexIn` refers to it. -/
theorem live_sampler_of_inv {s : OptixScene} (hi : Inv s) (smp : TextureSampler)
    (hsmp : s.m_OptixVolSampler = some smp) :
    liveSamplers s.trace = [(smp.id, smp.glid)] ∧
    (∀ h ∈ (samplersCreated s.trace).map Prod.fst, h ≠ smp.id →
      (samplersDestroyed s.trace).count h = 1) ∧
    (samplersDestroyed s.trace).count smp.id = 0 ∧
    (∃ c, s.m_OptixContext = some c ∧ c.volTexIn = some smp.id) := by
  have h1 := hi.samplers
  have h2 := hi.samplersNodup
  have h3 := hi.samplerAtlas smp hsmp
  rw [hsmp] at h1
  simp only [Option.map_some', Option.toList] at h1
  rw [h1] at h2
  obtain ⟨hdn, -, hdisj⟩ := List.nodup_append.1 h2
  have hnot : smp.id ∉ samplersDestroyed s.trace :=
    fun hmem => hdisj hmem (List.mem_singleton_self _) 
  obtain ⟨init, last, hsplit, hinit, hlast⟩ := List.map_eq_append_iff.1 h1
  have hl : last = [(smp.id, smp.glid)] := by
    cases last with
    | nil => simp at hlast
    | cons p rest =>
      cases rest with
      | nil =>
        rw [hsplit] at h3
        simp at h3
        rw [h3]
      | cons q r => simp at hlast
  subst hl
  refine ⟨?_, ?_, List.count_eq_zero.2 hnot, ?_⟩
  · unfold liveSamplers
    rw [hsplit, List.filter_append, filter_fst_not_mem _ _ hinit]
    simp [hnot]
  · intro h hh hne
    rw [h1] at hh
    rcases List.mem_append.1 hh with hh | hh
    · exact List.count_eq_one_of_mem hdn hh
    · exact absurd (List.mem_singleton.1 hh) hne
  · obtain ⟨c, hc, hv⟩ := hi.context
    exact ⟨c, hc, by rw [hv, hsmp]; rfl⟩

/-- C3: after an `AddVolume` call made in any reachable state (so after any
sequence of one or more `AddVolume` calls, whatever else was called in between),
exactly one sampler is live; it was created from the atlas handle of this call;
every sampler created earlier has been destroyed exactly once and the live one
never; `m_OptixVolSampler` and the variable `volTexIn` refer to it. -/
theorem C3_one_live_sampler (L : Layout) (s : OptixScene) (hs : Reachable L s)
    (atlas_glid : Int) (vmin vmax : Vector3DF) (mat_id : Int) (xform : Matrix4F)
    (deep lset : Bool) (mat : Material) (hm : vecAt s.m_OptixMats mat_id = some mat) :
    ∃ s1 smp,
      AddVolume atlas_glid vmin vmax mat_id xform deep lset s = some s1 ∧
      s1.m_OptixVolSampler = some smp ∧ smp.glid = atlas_glid ∧
      liveSamplers s1.trace = [(smp.id, atlas_glid)] ∧
      (∀ h ∈ (samplersCreated s1.trace).map Prod.fst, h ≠ smp.id →
        (samplersDestroyed s1.trace).count h = 1) ∧
      (samplersDestroyed s1.trace).count smp.id = 0 ∧
      (∃ c, s1.m_OptixContext = some c ∧ c.volTexIn = some smp.id) := by
  have hi := inv_of_reachable hs
  obtain ⟨ctx, hc, -⟩ := hi.context
  obtain ⟨g, a, hg, -⟩ := hi.mainGroup
  have h1 := AddVolume_of atlas_glid vmin vmax xform deep lset hc hg hm
  have hi1 := inv_AddVolume hi h1
  obtain ⟨l1, l2, l3, l4⟩ := live_sampler_of_inv hi1 (volumeSampler s atlas_glid) rfl
  exact ⟨_, volumeSampler s atlas_glid, h1, rfl, rfl, l1, l2, l3, l4⟩

theorem C3_witness :
    Reachable layout0 scene1 ∧ vecAt scene1.m_OptixMats 1 = some material1 ∧
    samplersCreated scene1.trace = [(38, 7)] ∧
    (AddVolume 9 (vec3 0 0 0) (vec3 1 1 1) 1 [] false true scene1).map
      (fun s1 => (samplersCreated s1.trace, samplersDestroyed s1.trace,
        s1.m_OptixVolSampler.map (fun x => (x.id, x.glid)))) =
      some ([(38, 7), (45, 9)], [38], some (45, 9)) ∧
    ∃ s1 smp,
      AddVolume 9 (vec3 0 0 0) (vec3 1 1 1) 1 [] false true scene1 = some s1 ∧
      s1.m_OptixVolSampler = some smp ∧ smp.glid = 9 ∧
      liveSamplers s1.trace = [(smp.id, 9)] := by
  have hr : Reachable layout0 scene1 := ⟨4, 3, scene0, build1, rfl, rfl⟩
  obtain ⟨s1, smp, h1, h2, h3, h4, -⟩ :=
    C3_one_live_sampler layout0 scene1 hr 9 (vec3 0 0 0) (vec3 1 1 1) 1 [] false true
      material1 rfl
  exact ⟨hr, rfl, by decide, by decide, s1, smp, h1, h2, h3, h4⟩


/-! ## C4: the index `AddMaterial` returns -/

/-- What `AddMaterial` guarantees in every state: the index returned is the
number of materials held before, the new material is stored there, and the new
all-zero block is appended to the parameter list, at the position given by the
number of blocks held before.  The block therefore sits at the returned index
exactly when the two lists had the same length. -/
theorem AddMaterial_index (L : Layout) (fname cast_prog shadow_prog : String)
    (s s1 : OptixScene) (i : Int)
    (h : AddMaterial L fname cast_prog shadow_prog s = some (i, s1)) :
    i = s.m_OptixMats.length ∧
    (∃ m, vecAt s1.m_OptixMats i = some m ∧ m.id = s.nextHandle ∧
      m.mat = some (zeroBlob L.sizeofMaterialParams)) ∧
    s1.m_OptixMatParams = s.m_OptixMatParams ++ [zeroBlob L.sizeofMaterialParams] ∧
    (s.m_OptixMatParams.length = s.m_OptixMats.length →
      vecAt s1.m_OptixMatParams i = some (zeroBlob L.sizeofMaterialParams)) := by
  obtain ⟨-, hi, rfl⟩ := AddMaterial_eq h
  subst hi
  refine ⟨rfl,
    ⟨{ id := s.nextHandle
       closestHit := (0, { id := s.nextHandle + 1, file := fname ++ ".ptx", func := cast_prog })
       anyHit := (1, { id := s.nextHandle + 2, file := fname ++ ".ptx", func := shadow_prog })
       mat := some (zeroBlob L.sizeofMaterialParams) }, ?_, rfl, rfl⟩, rfl, ?_⟩
  · simp [vecAt]
  · intro hlen
    simp [vecAt, ← hlen]

/-- C4 at the failing input: one material is added, its block is overwritten
with `[1,2,3,4]`, and `ClearGraph` is called.  The next `AddMaterial` returns
index 0 and stores the new material at 0, but the parameter list still holds the
old block at 0: the new all-zero block is at 1, and `SetMaterialParams ( 0 )`
publishes the old block to the new material. -/
theorem C4_stale_block_after_ClearGraph :
    sceneStale.m_OptixMats = [] ∧ sceneStale.m_OptixMatParams = [[1, 2, 3, 4]] ∧
    (AddMaterial layout0 "optix_trace_deep" "trace_deep" "trace_shadow" sceneStale).map
      (fun r => (r.1, r.2.m_OptixMats.map (fun m => (m.id, m.mat)), r.2.m_OptixMatParams,
        vecAt r.2.m_OptixMatParams r.1,
        (SetMaterialParams r.1 r.2).map (fun s => s.m_OptixMats.map (fun m => (m.id, m.mat))))) =
      some (0, [(18, some [0, 0, 0, 0])], [[1, 2, 3, 4], [0, 0, 0, 0]], some [1, 2, 3, 4],
        some [(18, some [1, 2, 3, 4])]) :=
  ⟨rfl, rfl, rfl⟩


/-! ## C5: the camera -/

/-- C5: on a scene with a context, for every position and first basis vector,
every `V` and `W` with exact components and every non-zero aspect ratio,
`SetCamera` returns and publishes `cam_pos = pos`, `cam_U = U`,
`cam_V = -V/asp` and `cam_W = -W`, componentwise. -/
theorem C5_SetCamera_publishes (s : OptixScene) (ctx : Context) (pos U : Vector3DF)
    (vx vy vz wx wy wz asp : ℚ) (hasp : asp ≠ 0) (hc : s.m_OptixContext = some ctx) :
    ∃ s1 c1,
      SetCamera pos U (vec3 vx vy vz) (vec3 wx wy wz) (FloatVal.num asp) s = some s1 ∧
      s1.m_OptixContext = some c1 ∧
      c1.cam_pos = some pos ∧ c1.cam_U = some U ∧
      c1.cam_V = some (vec3 (-vx / asp) (-vy / asp) (-vz / asp)) ∧
      c1.cam_W = some (vec3 (-wx) (-wy) (-wz)) := by
  rw [SetCamera, setContext, hc]
  refine ⟨_, _, rfl, rfl, rfl, rfl, ?_, ?_⟩
  · simp [vec3, FloatVal.neg, FloatVal.div, hasp]
  · simp [vec3, FloatVal.neg]

theorem C5_witness :
    (2 : ℚ) ≠ 0 ∧ scene0.m_OptixContext = some (scene0.m_OptixContext.getD { id := 0 }) ∧
    ∃ s1 c1,
      SetCamera (vec3 5 6 7) (vec3 1 0 0) (vec3 0 1 0) (vec3 0 0 1) (FloatVal.num 2) scene0 =
        some s1 ∧
      s1.m_OptixContext = some c1 ∧
      c1.cam_pos = some (vec3 5 6 7) ∧ c1.cam_U = some (vec3 1 0 0) ∧
      c1.cam_V = some (vec3 0 (-1 / 2) 0) ∧ c1.cam_W = some (vec3 0 0 (-1)) := by
  obtain ⟨s1, c1, h1, h2, h3, h4, h5, h6⟩ :=
    C5_SetCamera_publishes scene0 (scene0.m_OptixContext.getD { id := 0 }) (vec3 5 6 7)
      (vec3 1 0 0) 0 1 0 0 0 1 2 (by norm_num) rfl
  refine ⟨by norm_num, rfl, s1, c1, h1, h2, h3, h4, ?_, ?_⟩
  · rw [h5]; norm_num
  · rw [h6]; norm_num


/-! ## C6: the unpack alignment -/

/-- C6: for every element size of the output buffer, `ReadOutputTex` returns and
sets the unpack alignment to `unpackAlignment elementSize`, which is one of
1, 2, 4, 8, divides the element size, and is the largest of 8, 4, 2, 1 that does;
for the sizes 16, 12, 8, 6, 4, 2, 1 it is 8, 4, 8, 2, 4, 2, 1. -/
theorem C6_unpack_alignment_largest_divisor (elementSize : Nat) (b : Buffer)
    (s : OptixScene) (out_tex : Int) :
    unpackAlignment elementSize ∈ [1, 2, 4, 8] ∧
    unpackAlignment elementSize ∣ elementSize ∧
    (∀ a ∈ [8, 4, 2, 1], a ∣ elementSize → a ≤ unpackAlignment elementSize) ∧
    [16, 12, 8, 6, 4, 2, 1].map unpackAlignment = [8, 4, 8, 2, 4, 2, 1] ∧
    ∃ s1, ReadOutputTex out_tex
        { s with m_OptixBuffer := some { b with elementSize := elementSize } } = some s1 ∧
      (s1.trace.drop s.trace.length).filterMap (fun c =>
        match c with
        | Call.glPixelStorei GLenum.GL_UNPACK_ALIGNMENT a => some a
        | _ => none) = [unpackAlignment elementSize] := by
  refine ⟨?_, ?_, ?_, by decide, _, rfl, ?_⟩
  · unfold unpackAlignment
    split
    · simp
    · split
      · simp
      · split <;> simp
  · unfold unpackAlignment
    split
    · omega
    · split
      · omega
      · split
        · omega
        · exact Nat.one_dvd _
  · intro a ha hd
    unfold unpackAlignment
    simp only [List.mem_cons, List.mem_singleton, List.not_mem_nil, or_false] at ha
    rcases ha with rfl | rfl | rfl | rfl <;> split <;> try split <;> try split
    all_goals omega
  · simp [List.filterMap_append, copyToTexture_filterMap_nil]


/-! ## C7: `Launch` and `ValidateGraph` -/

/-- C7 fails as stated: on the scene just initialised by `InitializeOptix ( 4, 3 )`
no `ValidateGraph` call has been made (the trace holds neither `validate` nor
`compile`), and yet `Launch` returns normally when the device raises no
exception, having issued the dispatch `launch ( 0, 4, 3 )`. -/
theorem C7_counterexample :
    Call.validate ∉ scene0.trace ∧ Call.compile ∉ scene0.trace ∧
    (Launch true scene0).map (fun s1 => callsSince scene0 s1) =
      some [Call.launch 0 4 3, Call.cuCtxSynchronize] := by
  decide

/-- C7, amended: `Launch` does not depend on whether `ValidateGraph` was called.
In every reachable state, validated or not, it issues exactly one dispatch, over
the dimensions of the output buffer through entry point 0; it then synchronises
and returns normally when the device raises no exception, and ends in
`nverror()` when the device does. -/
theorem C7_Launch_dispatches_without_validation (L : Layout) (s : OptixScene)
    (hs : Reachable L s) :
    ∃ b s1, s.m_OptixBuffer = some b ∧ Launch true s = some s1 ∧
      callsSince s s1 =
        [Call.launch 0 (toInt32 b.width) (toInt32 b.height), Call.cuCtxSynchronize] ∧
      dispatches (callsSince s s1) = [Call.launch 0 (toInt32 b.width) (toInt32 b.height)] ∧
      Launch false s = none := by
  have hi := inv_of_reachable hs
  obtain ⟨c, hc, -⟩ := hi.context
  obtain ⟨b, hb, -⟩ := hi.buffer
  have h1 : Launch true s = some { s with
      trace := s.trace ++
        [Call.launch 0 (toInt32 b.width) (toInt32 b.height), Call.cuCtxSynchronize] } := by
    simp only [Launch, hb, hc, if_true]
  refine ⟨b, _, hb, h1, ?_, ?_, ?_⟩
  · simp [callsSince]
  · simp [callsSince, dispatches]
  · simp [Launch, hb, hc]

theorem C7_witness :
    Reachable layout0 scene0 ∧ Call.validate ∉ scene0.trace ∧
    ∃ b s1, scene0.m_OptixBuffer = some b ∧ Launch true scene0 = some s1 ∧
      dispatches (callsSince scene0 s1) =
        [Call.launch 0 (toInt32 b.width) (toInt32 b.height)] := by
  have hr : Reachable layout0 scene0 := ⟨4, 3, scene0, [], rfl, rfl⟩
  obtain ⟨b, s1, h1, h2, -, h4, -⟩ := C7_Launch_dispatches_without_validation layout0 scene0 hr
  exact ⟨hr, by decide, b, s1, h1, h2, h4⟩

/-! ## C8: the formats `ReadOutputTex` transfers -/

/-- The `switch` of `ReadOutputTex` seen as a function of the buffer: the call
returns, with one image transfer for the four formats that have a `case` and
none for any other format (there is no `default`). -/
theorem ReadOutputTex_transfers (s : OptixScene) (b : Buffer) (out_tex : Int) :
    ∃ s1, ReadOutputTex out_tex { s with m_OptixBuffer := some b } = some s1 ∧
      imageTransfers (s1.trace.drop s.trace.length) =
        (if supportedFormat b.format = true then 1 else 0) := by
  refine ⟨_, rfl, ?_⟩
  cases hf : b.format <;>
    simp [imageTransfers, copyToTexture, supportedFormat, hf, List.filter_append]

/-- C9 fails as stated: `AddPolygons` on an initialised scene with one material
raises the child count of the top-level group from 0 to 1, and the only
acceleration marked dirty, during the call or ever before, is the new geometry
group's (handle 30), not the top-level group's (handle 14). -/
theorem C9_counterexample :
    sceneMats.m_OptixMainGroup.map (fun g => (g.childCount, g.acceleration)) =
      some (0, some mainAcceleration) ∧
    (AddPolygons triangle 0 [] sceneMats).map
      (fun s1 => (s1.m_OptixMainGroup.map (fun g => (g.childCount, g.acceleration)),
        markedDirty s1.trace)) =
      some (some (1, some mainAcceleration), [30]) := by
  decide

/-- C9, amended: in a reachable state, a returning `AddPolygons` or `AddVolume`
call marks dirty exactly one acceleration, the one it has just created for the
geometry group of the new subtree; the acceleration of the top-level group stays
the one the group had before the call and has never been marked dirty. -/
theorem C9_new_subtree_acceleration_marked (L : Layout) (s s1 : OptixScene) (op : Op)
    (hs : Reachable L s) (hop : op.addsSubtree = true) (h : step L op s = some s1) :
    ∃ t gg acc g g1 a,
      newTransform op s1 = [t] ∧ t.child = some gg ∧ gg.acceleration = some acc ∧
      markedDirty (callsSince s s1) = [acc.id] ∧
      s.m_OptixMainGroup = some g ∧ s1.m_OptixMainGroup = some g1 ∧
      g1.acceleration = g.acceleration ∧ g.acceleration = some a ∧
      a.id ≠ acc.id ∧ a.id ∉ markedDirty s1.trace := by
  have hi := inv_of_reachable hs
  have hi1 := inv_step hi h
  obtain ⟨g, a, hg, ha, hlt, -⟩ := hi.mainGroup
  obtain ⟨g1, a1, hg1, ha1, -, hnm1⟩ := hi1.mainGroup
  rcases step_cases h with ⟨rfl, -⟩ | ⟨f, c, sh, i, rfl, -⟩ | ⟨m, mat, x, rfl, h1⟩ |
    ⟨at0, lo, hi0, mat, x, d, l, rfl, h1⟩ | ⟨h1, -⟩
  · simp [Op.addsSubtree] at hop
  · simp [Op.addsSubtree] at hop
  · obtain ⟨ctx, g0, vd, nd, tv, mt, -, hg0, -, -, -, -, rfl⟩ := AddPolygons_eq h1
    rw [hg0] at hg
    cases hg
    simp only [Option.some.injEq] at hg1
    subst hg1
    have hacc : (Group.setChild
        (g.setChildCount (s.m_OptixModels.length + s.m_OptixVolumes.length + 1))
        (s.m_OptixModels.length + s.m_OptixVolumes.length)
        (meshSubtree s (meshGeometry s m vd nd tv) mt x)).acceleration = g.acceleration := rfl
    rw [hacc, ha] at ha1
    cases ha1
    refine ⟨meshSubtree s (meshGeometry s m vd nd tv) mt x, _, _, g, _, a, ?_, rfl, rfl, ?_,
      hg0, rfl, rfl, ha, ?_, hnm1⟩
    · simp [newTransform]
    · simp [callsSince, markedDirty]
    · show a.id ≠ s.nextHandle + 9
      omega
  · obtain ⟨ctx, g0, mt, -, hg0, -, rfl⟩ := AddVolume_eq h1
    rw [hg0] at hg
    cases hg
    simp only [Option.some.injEq] at hg1
    subst hg1
    have hacc : (Group.setChild
        (g.setChildCount (s.m_OptixModels.length + s.m_OptixVolumes.length + 1))
        (s.m_OptixModels.length + s.m_OptixVolumes.length)
        (volumeSubtree s (volumeGeometry s lo hi0 mat d l) mt x)).acceleration =
        g.acceleration := rfl
    rw [hacc, ha] at ha1
    cases ha1
    refine ⟨volumeSubtree s (volumeGeometry s lo hi0 mat d l) mt x, _, _, g, _, a, ?_, rfl,
      rfl, ?_, hg0, rfl, rfl, ha, ?_, hnm1⟩
    · simp [newTransform]
    · cases s.m_OptixVolSampler <;>
        simp [callsSince, markedDirty, destroyOldSampler, List.filterMap_append]
    · show a.id ≠ s.nextHandle + 4
      omega
  · rw [h1] at hop
    cases hop

theorem C9_witness :
    Reachable layout0 sceneMats ∧
    (Op.AddPolygons triangle 0 []).addsSubtree = true ∧
    (step layout0 (Op.AddPolygons triangle 0 []) sceneMats).isSome = true ∧
    ∃ (s1 : OptixScene) (t : Transform) (gg : GeometryGroup) (acc a : Acceleration),
      step layout0 (Op.AddPolygons triangle 0 []) sceneMats = some s1 ∧
      newTransform (Op.AddPolygons triangle 0 []) s1 = [t] ∧ t.child = some gg ∧
      gg.acceleration = some acc ∧ markedDirty (callsSince sceneMats s1) = [acc.id] ∧
      a.id ≠ acc.id ∧ a.id ∉ markedDirty s1.trace := by
  have hr : Reachable layout0 sceneMats := ⟨4, 3, scene0, build1.take 2, rfl, rfl⟩
  have hsome : (step layout0 (Op.AddPolygons triangle 0 []) sceneMats).isSome = true := by
    decide
  obtain ⟨s1, h1⟩ := Option.isSome_iff_exists.1 hsome
  obtain ⟨t, gg, acc, g, g1, a, e1, e2, e3, e4, -, -, -, -, e9, e10⟩ :=
    C9_new_subtree_acceleration_marked layout0 sceneMats s1 (Op.AddPolygons triangle 0 [])
      hr rfl h1
  exact ⟨hr, rfl, hsome, s1, t, gg, acc, a, h1, e1, e2, e3, e4, e9, e10⟩


/-! ## C10: the frame parameters after `InitializeOptix` -/

/-- C10 fails as stated: after `InitializeOptix ( 4, 3 )` the slot `cam_V` does
not hold the zero vector.  `SetCamera` is called with aspect ratio 0 and computes
`-0/0` for each component, which is not a number.  The transfer-function slot
`scn_transfer_func` holds nothing at all: `InitializeOptix` does not declare it. -/
theorem C10_counterexample :
    scene0.m_OptixContext.map (fun c => c.cam_V) =
      some (some ⟨FloatVal.nan, FloatVal.nan, FloatVal.nan⟩) ∧
    scene0.m_OptixContext.map (fun c => c.cam_V) ≠ some (some (vec3 0 0 0)) ∧
    scene0.m_OptixContext.map (fun c => c.scn_transfer_func) = some none := by
  decide

/-- C10, amended: for every `w` and `h` and whatever the scene held before,
`InitializeOptix` returns and leaves `frame_number`, `sample` and `scn_shading`
at 0, each of `light_pos`, `scn_steps`, `scn_extinct`, `scn_cutoff`, `cam_pos`,
`cam_U` and `cam_W` at the zero vector, and `gvdb` at an all-zero blob of the
size of `VDBInfo`; `cam_V` is declared too, and each of its components is the
result of dividing zero by the aspect ratio zero, which is not a number; the
transfer-function slot `scn_transfer_func` is left undeclared. -/
theorem C10_InitializeOptix_frame_parameters (L : Layout) (w h : Int) (s : OptixScene) :
    ∃ s1 c, InitializeOptix L w h s = some s1 ∧ s1.m_OptixContext = some c ∧
      c.frame_number = some 0 ∧ c.sample = some 0 ∧ c.scn_shading = some 0 ∧
      c.light_pos = some (vec3 0 0 0) ∧ c.scn_steps = some (vec3 0 0 0) ∧
      c.scn_extinct = some (vec3 0 0 0) ∧ c.scn_cutoff = some (vec3 0 0 0) ∧
      c.cam_pos = some (vec3 0 0 0) ∧ c.cam_U = some (vec3 0 0 0) ∧
      c.cam_W = some (vec3 0 0 0) ∧
      c.cam_V = some ⟨FloatVal.nan, FloatVal.nan, FloatVal.nan⟩ ∧
      c.gvdb = some (zeroBlob L.sizeofVDBInfo) ∧
      c.scn_transfer_func = none := by
  simp [InitializeOptix, initContextAndPrograms, declareVariables, createSeedBuffer,
    loadIntersectionPrograms, createMainGroup, CreateOutputOptix, CreateProgramOptix, setContext,
    SetSample, SetLight, SetShading, SetVolumeParams, SetCamera, AssignGVDB, zeroBlob,
    rtuGetSizeForRTformat, bind, Option.bind, toUInt32, vec3, FloatVal.neg, FloatVal.div]


/-! ## C11: `ClearGraph` -/

theorem destroyed_subtreeDestroyCalls (t : Transform) :
    (subtreeDestroyCalls t).filterMap Call.destroyed = subtreeHandles t := by
  unfold subtreeDestroyCalls subtreeHandles
  split
  · split <;> simp [Call.destroyed]
  · simp

theorem destroyed_flatMap_subtreeDestroyCalls (ts : List Transform) :
    (ts.flatMap subtreeDestroyCalls).filterMap Call.destroyed = ts.flatMap subtreeHandles := by
  induction ts with
  | nil => rfl
  | cons t ts ih =>
    simp [List.filterMap_append, destroyed_subtreeDestroyCalls, ih]

theorem subtreeDestroyCalls_of_isSubtree {t : Transform} (h : t.isSubtree = true) :
    ∃ gg gi, t.child = some gg ∧ gg.children = [some gi] ∧
      subtreeDestroyCalls t =
        [ Call.destroy NodeKind.geometry gi.geometry.id,
          Call.destroy NodeKind.geometryInstance gi.id,
          Call.destroy NodeKind.geometryGroup gg.id,
          Call.destroy NodeKind.transform t.id ] := by
  unfold Transform.isSubtree at h
  cases hc : t.child with
  | none => simp [hc] at h
  | some gg =>
    simp only [hc] at h
    split at h
    · rename_i gi hgi
      exact ⟨gg, gi, rfl, hgi, by simp [subtreeDestroyCalls, subtreeHandles, hc, hgi]⟩
    · simp at h

/-- C11: in every reachable state `ClearGraph` returns; the calls it makes are,
for each mesh subtree and then each volume subtree, the destroy of its Geometry,
GeometryInstance, GeometryGroup and Transform in that order, followed by one
destroy per Material; the handles destroyed are exactly the live node handles,
each once; the three lists are left empty; the context, the output buffer and the
six intersection and bounding-box programs are unchanged and none of their
handles is destroyed. -/
theorem C11_ClearGraph_destroys_each_node_once (L : Layout) (s : OptixScene)
    (hs : Reachable L s) :
    ∃ s1, ClearGraph s = some s1 ∧
      callsSince s s1 =
        s.m_OptixModels.flatMap subtreeDestroyCalls ++
        s.m_OptixVolumes.flatMap subtreeDestroyCalls ++
        s.m_OptixMats.map (fun m => Call.destroy NodeKind.material m.id) ∧
      (∀ t ∈ s.m_OptixModels ++ s.m_OptixVolumes, ∃ gg gi,
        t.child = some gg ∧ gg.children = [some gi] ∧
        subtreeDestroyCalls t =
          [ Call.destroy NodeKind.geometry gi.geometry.id,
            Call.destroy NodeKind.geometryInstance gi.id,
            Call.destroy NodeKind.geometryGroup gg.id,
            Call.destroy NodeKind.transform t.id ]) ∧
      (callsSince s s1).filterMap Call.destroyed = liveHandles s ∧
      (callsSince s s1).length = (liveHandles s).length ∧
      (liveHandles s).Nodup ∧
      (∀ h ∈ fixedHandles s, h ∉ (callsSince s s1).filterMap Call.destroyed) ∧
      s1.m_OptixModels = [] ∧ s1.m_OptixVolumes = [] ∧ s1.m_OptixMats = [] ∧
      s1.m_OptixContext = s.m_OptixContext ∧
      s1.m_OptixBuffer = s.m_OptixBuffer ∧
      s1.m_OptixMeshIntersectProg = s.m_OptixMeshIntersectProg ∧
      s1.m_OptixMeshBBoxProg = s.m_OptixMeshBBoxProg ∧
      s1.m_OptixVolIntersectSurfProg = s.m_OptixVolIntersectSurfProg ∧
      s1.m_OptixVolIntersectLevelSetProg = s.m_OptixVolIntersectLevelSetProg ∧
      s1.m_OptixVolIntersectDeepProg = s.m_OptixVolIntersectDeepProg ∧
      s1.m_OptixVolBBoxProg = s.m_OptixVolBBoxProg := by
  have hi := inv_of_reachable hs
  have hm := destroySubtrees_of_isSubtree
    (fun t ht => hi.subtrees t (List.mem_append_left _ ht))
  have hv := destroySubtrees_of_isSubtree
    (fun t ht => hi.subtrees t (List.mem_append_right _ ht))
  have hd : (s.m_OptixModels.flatMap subtreeDestroyCalls ++
      s.m_OptixVolumes.flatMap subtreeDestroyCalls ++
      s.m_OptixMats.map (fun m => Call.destroy NodeKind.material m.id)).filterMap
        Call.destroyed = liveHandles s := by
    have hmat : ∀ l : List Material,
        l.filterMap (fun x => some x.id) = l.map (fun m => m.id) := by
      intro l
      induction l with
      | nil => rfl
      | cons a l ih => simp [ih]
    simp [List.filterMap_append, destroyed_flatMap_subtreeDestroyCalls, liveHandles,
      List.filterMap_map, Function.comp_def, Call.destroyed, hmat]
  have hcg : ClearGraph s = some { s with
      m_OptixModels := []
      m_OptixVolumes := []
      m_OptixMats := []
      trace := s.trace ++ s.m_OptixModels.flatMap subtreeDestroyCalls ++
        s.m_OptixVolumes.flatMap subtreeDestroyCalls ++
        s.m_OptixMats.map (fun m => Call.destroy NodeKind.material m.id) } := by
    simp only [ClearGraph, hm, hv]
  refine ⟨_, hcg, ?_, ?_, ?_, ?_, hi.handlesNodup, ?_,
    rfl, rfl, rfl, rfl, rfl, rfl, rfl, rfl, rfl, rfl, rfl⟩
  · simp [callsSince, List.append_assoc]
  · intro t ht
    exact subtreeDestroyCalls_of_isSubtree (hi.subtrees t ht)
  · simpa [callsSince, List.append_assoc] using hd
  · have hl : ∀ ts : List Transform, (∀ t ∈ ts, t.isSubtree = true) →
        (ts.flatMap subtreeDestroyCalls).length = (ts.flatMap subtreeHandles).length := by
      intro ts hts
      induction ts with
      | nil => rfl
      | cons t ts ih =>
        obtain ⟨gg, gi, h1, h2, h3⟩ :=
          subtreeDestroyCalls_of_isSubtree (hts t (List.mem_cons_self _ _))
        have := ih (fun u hu => hts u (List.mem_cons_of_mem _ hu))
        simp [h3, subtreeHandles, h1, h2, this]
    simp [callsSince, List.append_assoc, liveHandles,
      hl _ (fun t ht => hi.subtrees t (List.mem_append_left _ ht)),
      hl _ (fun t ht => hi.subtrees t (List.mem_append_right _ ht))]
  · intro h hh
    have : (callsSince s { s with
        m_OptixModels := []
        m_OptixVolumes := []
        m_OptixMats := []
        trace := s.trace ++ s.m_OptixModels.flatMap subtreeDestroyCalls ++
          s.m_OptixVolumes.flatMap subtreeDestroyCalls ++
          s.m_OptixMats.map (fun m => Call.destroy NodeKind.material m.id) }).filterMap
        Call.destroyed = liveHandles s := by
      simpa [callsSince, List.append_assoc] using hd
    rw [this]
    exact hi.fixedNotLive h hh

theorem C11_witness :
    Reachable layout0 scene1 ∧
    (ClearGraph scene1).map (fun s1 => callsSince scene1 s1) =
      some [ Call.destroy NodeKind.geometry 27, Call.destroy NodeKind.geometryInstance 28,
             Call.destroy NodeKind.geometryGroup 29, Call.destroy NodeKind.transform 31,
             Call.destroy NodeKind.geometry 32, Call.destroy NodeKind.geometryInstance 34,
             Call.destroy NodeKind.geometryGroup 35, Call.destroy NodeKind.transform 37,
             Call.destroy NodeKind.material 15, Call.destroy NodeKind.material 18 ] ∧
    (∃ s1, ClearGraph scene1 = some s1 ∧ s1.m_OptixModels = [] ∧ s1.m_OptixVolumes = [] ∧
      s1.m_OptixMats = []) := by
  have hr : Reachable layout0 scene1 := ⟨4, 3, scene0, build1, rfl, rfl⟩
  obtain ⟨s1, h1, -, -, -, -, -, -, h2, h3, h4, -⟩ :=
    C11_ClearGraph_destroys_each_node_once layout0 scene1 hr
  exact ⟨hr, by decide, s1, h1, h2, h3, h4⟩


/-! ## C12: the buffers `AddPolygons` builds -/

theorem forLoop_some {α : Type} {body : Nat → Option α} {n : Nat} {l : List α}
    (h : forLoop body n = some l) : l.length = n ∧ ∀ i, i < n → body i = l[i]? := by
  induction n generalizing l with
  | zero =>
    simp only [forLoop, Option.some.injEq] at h
    subst h
    exact ⟨rfl, fun i hi => absurd hi (Nat.not_lt_zero i)⟩
  | succ n ih =>
    unfold forLoop at h
    cases hd : forLoop body n with
    | none => simp [hd] at h
    | some done =>
      cases hb : body n with
      | none => simp [hd, hb] at h
      | some x =>
        simp only [hd, hb, Option.some.injEq] at h
        subst h
        obtain ⟨hlen, hget⟩ := ih hd
        refine ⟨by simp [hlen], ?_⟩
        intro i hi
        rcases Nat.lt_succ_iff_lt_or_eq.1 hi with hlt | heq
        · rw [hget i hlt, List.getElem?_append_left (by omega)]
        · subst heq
          rw [hb, List.getElem?_append_right (by omega)]
          simp [hlen]

theorem forLoop_total {α : Type} {body : Nat → Option α} {n : Nat}
    (h : ∀ i, i < n → (body i).isSome = true) : ∃ l, forLoop body n = some l := by
  induction n with
  | zero => exact ⟨[], rfl⟩
  | succ n ih =>
    obtain ⟨done, hd⟩ := ih (fun i hi => h i (Nat.lt_succ_of_lt hi))
    obtain ⟨x, hx⟩ := Option.isSome_iff_exists.1 (h n (Nat.lt_succ_self n))
    exact ⟨done ++ [x], by simp [forLoop, hd, hx]⟩

theorem readTriangle_isSome (model : Model) (i : Nat)
    (h : i * 3 + 2 < model.elemBuffer.length) : (readTriangle model i).isSome = true := by
  unfold readTriangle
  rw [List.getElem?_eq_getElem (by omega : i * 3 < model.elemBuffer.length),
    List.getElem?_eq_getElem (by omega : i * 3 + 1 < model.elemBuffer.length),
    List.getElem?_eq_getElem h]
  rfl

theorem readTriangle_some {model : Model} {i : Nat} {t : Int3}
    (h : readTriangle model i = some t) :
    model.elemBuffer[i * 3]? = some t.x ∧ model.elemBuffer[i * 3 + 1]? = some t.y ∧
      model.elemBuffer[i * 3 + 2]? = some t.z := by
  unfold readTriangle at h
  split at h
  · rename_i x y z hx hy hz
    simp only [Option.some.injEq] at h
    subst h
    exact ⟨hx, hy, hz⟩
  · simp at h

/-- C12: for a readable model with `T = elemCount` triangles whose element
buffer holds at least `3T` entries, and a valid material index `mat_id`,
`AddPolygons` returns, and the geometry of the subtree it appends has primitive
count `T`; entry `i < T` of its vertex-index buffer is
`(e[3i], e[3i+1], e[3i+2])`; its normal-index buffer has the same entries; its
per-triangle material-index buffer is `T` zeros; the instance is bound to entry
`mat_id` of the material list.  With any other valid material index the
geometry built is the same: only the bound material differs. -/
theorem C12_AddPolygons_triangle_buffers (model : Model) (mat_id : Int) (xform : Matrix4F)
    (s : OptixScene) (ctx : Context) (g : Group) (mat : Material)
    (hc : s.m_OptixContext = some ctx) (hg : s.m_OptixMainGroup = some g)
    (hv : ∀ i, i < model.vertCount →
      (model.vertBuffer (i * model.vertStride + model.vertOffset)).isSome = true ∧
      (model.vertBuffer (i * model.vertStride + model.normOffset)).isSome = true)
    (he : model.elemCount * 3 ≤ model.elemBuffer.length)
    (hm : vecAt s.m_OptixMats mat_id = some mat) :
    ∃ s1 t gg gi vb nb mb,
      AddPolygons model mat_id xform s = some s1 ∧
      s1.m_OptixModels = s.m_OptixModels ++ [t] ∧
      t.child = some gg ∧ gg.children = [some gi] ∧
      gi.geometry.primitiveCount = model.elemCount ∧
      gi.geometry.vars.vindex_buffer = some vb ∧
      gi.geometry.vars.nindex_buffer = some nb ∧
      gi.geometry.vars.mindex_buffer = some mb ∧
      vb.data.length = model.elemCount ∧
      (∀ i, i < model.elemCount → ∃ a b c,
        model.elemBuffer[i * 3]? = some a ∧ model.elemBuffer[i * 3 + 1]? = some b ∧
        model.elemBuffer[i * 3 + 2]? = some c ∧ vb.data[i]? = some (Int3.mk a b c)) ∧
      nb.data = vb.data ∧
      mb.data = List.replicate model.elemCount 0 ∧
      gi.materials = [mat.id] ∧
      (∀ (mat_id2 : Int) (mat2 : Material), vecAt s.m_OptixMats mat_id2 = some mat2 →
        ∃ s2 t2 gg2 gi2,
          AddPolygons model mat_id2 xform s = some s2 ∧
          s2.m_OptixModels = s.m_OptixModels ++ [t2] ∧
          t2.child = some gg2 ∧ gg2.children = [some gi2] ∧
          gi2.geometry = gi.geometry ∧ gi2.materials = [mat2.id]) := by
  obtain ⟨vd, hvd⟩ := forLoop_total (fun i hi => (hv i hi).1)
  obtain ⟨nd, hnd⟩ := forLoop_total (fun i hi => (hv i hi).2)
  obtain ⟨tv, htv⟩ := forLoop_total
    (fun i (hi : i < model.elemCount) =>
      readTriangle_isSome model i (by omega))
  obtain ⟨hlen, hget⟩ := forLoop_some htv
  refine ⟨_, meshSubtree s (meshGeometry s model vd nd tv) mat xform, _, _, _, _, _,
    AddPolygons_of hc hg hvd hnd htv hm, rfl, rfl, rfl, rfl, rfl, rfl, rfl,
    hlen, ?_, rfl, rfl, rfl, ?_⟩
  · intro i hi
    have h1 := hget i hi
    have hlt : i < tv.length := by omega
    rw [List.getElem?_eq_getElem hlt] at h1
    obtain ⟨hx, hy, hz⟩ := readTriangle_some h1
    exact ⟨_, _, _, hx, hy, hz, by
      show tv[i]? = _
      rw [List.getElem?_eq_getElem hlt]⟩
  · intro mat_id2 mat2 hm2
    exact ⟨_, meshSubtree s (meshGeometry s model vd nd tv) mat2 xform, _, _,
      AddPolygons_of hc hg hvd hnd htv hm2, rfl, rfl, rfl, rfl, rfl⟩


theorem C12_witness :
    quad.elemCount * 3 ≤ quad.elemBuffer.length ∧
    vecAt scene1.m_OptixMats 1 = some material1 ∧
    ∃ s1 t gg gi vb nb mb,
      AddPolygons quad 1 [] scene1 = some s1 ∧
      s1.m_OptixModels = scene1.m_OptixModels ++ [t] ∧
      t.child = some gg ∧ gg.children = [some gi] ∧
      gi.geometry.primitiveCount = 2 ∧
      gi.geometry.vars.vindex_buffer = some vb ∧
      gi.geometry.vars.nindex_buffer = some nb ∧
      gi.geometry.vars.mindex_buffer = some mb ∧
      vb.data.length = 2 ∧ nb.data = vb.data ∧ mb.data = [0, 0] ∧ gi.materials = [18] := by
  obtain ⟨s1, t, gg, gi, vb, nb, mb, h1, h2, h3, h4, h5, h6, h7, h8, h9, -, h11, h12, h13, -⟩ :=
    C12_AddPolygons_triangle_buffers quad 1 [] scene1 context1 mainGroup1 material1
      rfl rfl (by decide) (by decide) rfl
  exact ⟨by decide, rfl, s1, t, gg, gi, vb, nb, mb, h1, h2, h3, h4, h5, h6, h7, h8, h9,
    h11, h12, h13⟩

end OptixSceneModel
